import Mathlib

set_option maxRecDepth 8000

/-!
Verification of the Project-M adaptive-learning decision core.

This file gives a shallow embedding of the three classes that carry the
decision logic of the repository — `MasteryTracker` (src/js/core/MasteryTracker.js),
`ProgressionGate` (src/js/mechanics/ProgressionGate.js) and
`JustificationValidator` (src/js/mechanics/JustificationValidator.js) — and
proves or refutes the frozen claims about them.

Modelling conventions:
* JavaScript numbers are modelled as exact rationals (the kernel-reducible
  `Frac` type below); the decimal
  constants of the source (0.85, 0.05, …) are exact rational literals, and all
  claims are settled at inputs whose comparisons are far from any
  floating-point rounding boundary.
* Timestamps are milliseconds as `Nat`; every `Date.now()` read inside one
  method call is modelled as the single parameter `now` (the source reads the
  clock several times inside one synchronous call; the reads agree up to
  clock resolution and nothing in the claims depends on that difference).
* JavaScript `Map`s are association lists (`List (key × value)`); `Map.set`
  keeps the position of an existing key and appends a new key, which is what
  `aset` below does, so iteration order matches the source.
* The mutually recursive pair `getPerformanceAnalytics` /
  `generatePerformanceRecommendations` recurses unconditionally in the source
  and therefore always terminates by a thrown (catchable) stack-overflow
  `RangeError`.  It is modelled with an explicit `fuel` parameter (the stack
  budget): every fuel value yields the thrown-error outcome, which is proved
  below (`getPerformanceAnalytics_error`).  Thrown exceptions are modelled by
  `Except`, whose error payload carries the mutated state, because the
  source mutates its `Map`s in place before the throw unwinds.
* The `id` field of an attempt (`Date.now() + Math.random()`) is not modelled:
  no code reads it.
-/

/-! ### Exact rational arithmetic that reduces in the kernel

The library rational operations (`Rat.add`, `Rat.mul`, …) are marked
`@[irreducible]`, which blocks `decide`/`rfl` evaluation in the kernel, so the
JavaScript numbers are modelled by this self-contained fraction type instead.
Values are kept normalized (sign on the numerator, positive reduced
denominator), so structural equality is value equality. -/

structure Frac where
  num : Int
  den : Nat
deriving DecidableEq

/-- The normalized fraction `n / d`; `d = 0` maps to 0 (the convention of the
library `Rat`, only reachable here behind division-by-zero guards). -/
def Frac.norm (n d : Int) : Frac :=
  if d = 0 then ⟨0, 1⟩
  else
    let n' : Int := if d < 0 then -n else n
    let dn : Nat := d.natAbs
    let g : Nat := Nat.gcd n'.natAbs dn
    ⟨(if n' < 0 then -1 else 1) * ((n'.natAbs / g : Nat) : Int), dn / g⟩

def Frac.add (a b : Frac) : Frac :=
  Frac.norm (a.num * b.den + b.num * a.den) ((a.den * b.den : Nat) : Int)

def Frac.sub (a b : Frac) : Frac :=
  Frac.norm (a.num * b.den - b.num * a.den) ((a.den * b.den : Nat) : Int)

def Frac.mul (a b : Frac) : Frac :=
  Frac.norm (a.num * b.num) ((a.den * b.den : Nat) : Int)

def Frac.div (a b : Frac) : Frac :=
  Frac.norm (a.num * b.den) ((a.den : Int) * b.num)

/-- Floor of a normalized fraction (the denominator is positive). -/
def Frac.floor (a : Frac) : Int :=
  if 0 ≤ a.num then ((a.num.toNat / a.den : Nat) : Int)
  else -(((a.num.natAbs + a.den - 1) / a.den : Nat) : Int)

instance : Add Frac := ⟨Frac.add⟩
instance : Sub Frac := ⟨Frac.sub⟩
instance : Mul Frac := ⟨Frac.mul⟩
instance : Div Frac := ⟨Frac.div⟩
instance : Neg Frac := ⟨fun a => ⟨-a.num, a.den⟩⟩
instance (n : Nat) : OfNat Frac n := ⟨⟨n, 1⟩⟩
instance : NatCast Frac := ⟨fun n => ⟨n, 1⟩⟩
instance : IntCast Frac := ⟨fun n => ⟨n, 1⟩⟩
instance : OfScientific Frac :=
  ⟨fun m b e => if b then Frac.norm m ((10 ^ e : Nat) : Int) else ⟨((m * 10 ^ e : Nat) : Int), 1⟩⟩
instance : LE Frac := ⟨fun a b => a.num * b.den ≤ b.num * a.den⟩
instance : LT Frac := ⟨fun a b => a.num * b.den < b.num * a.den⟩

instance (a b : Frac) : Decidable (a ≤ b) :=
  inferInstanceAs (Decidable (a.num * b.den ≤ b.num * a.den))

instance (a b : Frac) : Decidable (a < b) :=
  inferInstanceAs (Decidable (a.num * b.den < b.num * a.den))

instance : Max Frac := ⟨fun a b => if a ≤ b then b else a⟩
instance : Min Frac := ⟨fun a b => if a ≤ b then a else b⟩

/-- Sum of a list of fractions (JavaScript `reduce` with `+`). -/
def qsum (l : List Frac) : Frac := l.foldr (fun a b => a + b) 0

/-! ### Association-list model of JavaScript `Map` -/

/-- Lookup in an association list (JavaScript `Map.get`). -/
def alookup {α : Type} (k : String) : List (String × α) → Option α
  | [] => none
  | (k', v) :: rest => if k' = k then some v else alookup k rest

/-- Update/insert in an association list (JavaScript `Map.set`): an existing
key keeps its position, a new key is appended. -/
def aset {α : Type} (k : String) (v : α) : List (String × α) → List (String × α)
  | [] => [(k, v)]
  | (k', v') :: rest => if k' = k then (k, v) :: rest else (k', v') :: aset k v rest

/-- JavaScript `Array.prototype.slice(-n)` for `n > 0`: the last `n` elements. -/
def lastN {α : Type} (l : List α) (n : Nat) : List α := l.drop (l.length - n)

/-- Stable insertion into a list sorted by the Boolean preorder `le`: the
inserted element goes before the first element it compares `le` to. -/
def orderedInsert {α : Type} (le : α → α → Bool) (a : α) : List α → List α
  | [] => [a]
  | b :: l => if le a b then a :: b :: l else b :: orderedInsert le a l

/-- Stable sort by a Boolean total preorder, modelling JavaScript
`Array.prototype.sort` with a consistent comparator (the ECMAScript sort is
stable, and a stable sort under a total preorder has a unique result, so any
stable algorithm is faithful; insertion sort is used because it reduces in
the kernel). -/
def insertionSort {α : Type} (le : α → α → Bool) : List α → List α
  | [] => []
  | a :: l => orderedInsert le a (insertionSort le l)

/-! ### MasteryTracker data model (src/js/core/MasteryTracker.js) -/

/-- One recorded learning attempt (`recordAttempt`, lines 43–62). -/
structure Attempt where
  timestamp : Nat
  concept : String
  isCorrect : Bool
  attempts : Nat
  timeSpent : Int
  reasoningScore : Frac
  context : String
  confidence : Frac
deriving DecidableEq

/-- Per-concept progress record (`updateConceptProgress`, lines 67–124). -/
structure ConceptProgress where
  concept : String
  totalAttempts : Nat
  correctAttempts : Nat
  averageAttempts : Frac
  averageTime : Frac
  reasoningScores : List Frac
  lastAttempt : Option Attempt
  difficultyLevel : Nat
  masteryLevel : Frac
  consistencyScore : Frac
  retentionScore : Frac
  applicationScore : Frac
  firstSeenDate : Nat
  lastMasteryCheck : Nat
  nextReviewDue : Option Nat
deriving DecidableEq

/-- The five per-dimension mastery scores (`calculateMasteryScores`). -/
structure MasteryScores where
  accuracy : Frac
  consistency : Frac
  reasoning : Frac
  retention : Frac
  application : Frac
deriving DecidableEq

/-- A recorded mastery achievement (`recordMasteryAchievement`, lines 270–288). -/
structure MasteryAchievement where
  timestamp : Nat
  concept : String
  scores : MasteryScores
  overallScore : Frac
  attemptsRequired : Nat
  timeToMastery : Int
deriving DecidableEq

/-- The mutable state of a `MasteryTracker` instance. -/
structure MasteryTracker where
  attemptHistory : List Attempt
  conceptProgress : List (String × ConceptProgress)
  masteryHistory : List (String × List MasteryAchievement)
  spacedRepetition : List (String × Nat)
deriving DecidableEq

/-- A fresh tracker (the constructor). -/
def mtEmpty : MasteryTracker := ⟨[], [], [], []⟩

/-- Source `this.retentionIntervals = [1, 3, 7, 14, 30, 60]` (days). -/
def retentionIntervals : List Nat := [1, 3, 7, 14, 30, 60]

/-- Overall mastery as the weighted sum over `this.masteryWeights`
(accuracy .30, consistency .25, reasoning .20, retention .15, application .10). -/
def calculateOverallMastery (s : MasteryScores) : Frac :=
  s.accuracy * 0.30 + s.consistency * 0.25 + s.reasoning * 0.20 +
    s.retention * 0.15 + s.application * 0.10

/-- Source `allComponentsMeetThreshold`: every dimension at or above its entry in
`this.masteryThresholds` (accuracy .85, consistency .80, reasoning .75,
retention .70, application .80). -/
def allComponentsMeetThreshold (s : MasteryScores) : Bool :=
  decide ((0.85 : Frac) ≤ s.accuracy) && decide ((0.80 : Frac) ≤ s.consistency) &&
  decide ((0.75 : Frac) ≤ s.reasoning) && decide ((0.70 : Frac) ≤ s.retention) &&
  decide ((0.80 : Frac) ≤ s.application)

/-- Source `getRecentAttempts(concept, count)`: the last `count` attempts on the
concept, in history order. -/
def getRecentAttempts (s : MasteryTracker) (concept : String) (count : Nat) : List Attempt :=
  lastN (s.attemptHistory.filter (fun a => a.concept == concept)) count

/-- Source `calculateAccuracyScore`: accuracy over the most recent 5 attempts. -/
def calculateAccuracyScore (s : MasteryTracker) (p : ConceptProgress) : Frac :=
  if p.totalAttempts = 0 then 0
  else
    let recentAttempts := getRecentAttempts s p.concept 5
    if recentAttempts.length = 0 then 0
    else ((recentAttempts.filter (fun a => a.isCorrect)).length : Frac) / recentAttempts.length

/-- Source `calculateConsistencyScore`: `max(0, 1 - 2*variance)` of the 0/1
correctness sequence of the last 10 attempts; 0 below 3 attempts.
The source stores the value into `progress.consistencyScore`; the store is
performed by `updateConceptProgress` below. -/
def calculateConsistencyScoreVal (s : MasteryTracker) (concept : String) : Frac :=
  let recentAttempts := getRecentAttempts s concept 10
  if recentAttempts.length < 3 then 0
  else
    let performances : List Frac := recentAttempts.map (fun a => if a.isCorrect then 1 else 0)
    let mean := qsum performances / performances.length
    let variance := qsum (performances.map (fun v => (v - mean) * (v - mean))) / performances.length
    max 0 (1 - variance * 2)

/-- Source `calculateReasoningScore`: mean of the last 5 stored reasoning scores. -/
def calculateReasoningScoreVal (p : ConceptProgress) : Frac :=
  if p.reasoningScores.length = 0 then 0
  else
    let recent := lastN p.reasoningScores 5
    qsum recent / recent.length

/-- One gap group built by `getAttemptsByTimeGaps`. -/
structure TimeGap where
  timeGap : Nat
  beforeAttempts : List Attempt
  afterAttempts : List Attempt
deriving DecidableEq

/-- The loop body of `getAttemptsByTimeGaps` (lines 438–457): walk consecutive
attempts; a gap of more than one hour opens a new group, later attempts within
an hour join the open group. -/
def gapLoop : List Attempt → Attempt → Option TimeGap → List TimeGap
  | [], _, cur => match cur with | some g => [g] | none => []
  | a :: rest, prev, cur =>
    let tg := a.timestamp - prev.timestamp
    if 3600000 < tg then
      (match cur with | some g => [g] | none => []) ++
        gapLoop rest a (some ⟨tg, [prev], [a]⟩)
    else
      match cur with
      | some g => gapLoop rest a (some { g with afterAttempts := g.afterAttempts ++ [a] })
      | none => gapLoop rest a none

/-- Source `getAttemptsByTimeGaps`: attempts on the concept sorted by timestamp,
plus the gap groups. (`Array.prototype.sort` is stable; `List.mergeSort` is
the matching stable sort.) -/
def getAttemptsByTimeGaps (s : MasteryTracker) (concept : String) :
    List Attempt × List TimeGap :=
  let atts := insertionSort (fun a b => decide (a.timestamp ≤ b.timestamp))
    (s.attemptHistory.filter (fun a => a.concept == concept))
  match atts with
  | [] => (atts, [])
  | a0 :: rest => (atts, gapLoop rest a0 none)

/-- Source `calculateRetentionScore`: mean post-gap accuracy over gaps longer than a
day; 0.5 with fewer than two gap groups or no qualifying gap. -/
def calculateRetentionScoreVal (s : MasteryTracker) (concept : String) : Frac :=
  let gaps := (getAttemptsByTimeGaps s concept).2
  if gaps.length < 2 then 0.5
  else
    let qualifying := gaps.filter (fun g => 86400000 < g.timeGap)
    if qualifying.length = 0 then 0.5
    else
      qsum (qualifying.map (fun g =>
        ((g.afterAttempts.filter (fun a => a.isCorrect)).length : Frac) / g.afterAttempts.length))
        / qualifying.length

/-- Source `calculateApplicationScore`: accuracy over attempts with
`context === 'assessment'`; 0.5 with none. -/
def calculateApplicationScore (s : MasteryTracker) (p : ConceptProgress) : Frac :=
  let applicationAttempts := s.attemptHistory.filter
    (fun a => a.concept == p.concept && a.context == "assessment")
  if applicationAttempts.length = 0 then 0.5
  else ((applicationAttempts.filter (fun a => a.isCorrect)).length : Frac) / applicationAttempts.length

/-- Source `calculateMasteryScores` (lines 154–162). -/
def calculateMasteryScores (s : MasteryTracker) (p : ConceptProgress) : MasteryScores :=
  { accuracy := calculateAccuracyScore s p
    consistency := p.consistencyScore
    reasoning := calculateReasoningScoreVal p
    retention := p.retentionScore
    application := calculateApplicationScore s p }

/-- Source `scheduleSpacedRepetition(concept, wasCorrect, wasMastered)`
(lines 358–384).  The stored `consistencyScore` is always nonnegative (it is
produced by `max(0, …)` or initialised to 0), so `Math.floor` of it is
nonnegative and `Int.toNat` is faithful. -/
def scheduleSpacedRepetition (now : Nat) (concept : String)
    (wasCorrect wasMastered : Bool) (s : MasteryTracker) : MasteryTracker :=
  match alookup concept s.conceptProgress with
  | none => s
  | some p =>
    let intervalIndex : Nat :=
      if wasMastered then min (retentionIntervals.length - 1) 4
      else if wasCorrect then
        min (Frac.floor (p.consistencyScore * retentionIntervals.length)).toNat
          (retentionIntervals.length - 1)
      else 0
    let intervalDays := retentionIntervals.getD intervalIndex 0
    let nextReview := now + intervalDays * 86400000
    { s with
      spacedRepetition := aset concept nextReview s.spacedRepetition
      conceptProgress :=
        aset concept { p with nextReviewDue := some nextReview } s.conceptProgress }

/-- Source `recordMasteryAchievement` (lines 270–288): append the achievement to the
concept's mastery timeline, then schedule the mastered-interval review.
The optional-chaining reads (`?.totalAttempts || 0`, `?.firstSeenDate`) are
modelled with `getD 0`; the function is only reached when the progress record
exists. -/
def recordMasteryAchievement (now : Nat) (concept : String) (scores : MasteryScores)
    (overallScore : Frac) (s : MasteryTracker) : MasteryTracker :=
  let hist := (alookup concept s.masteryHistory).getD []
  let p? := alookup concept s.conceptProgress
  let achievement : MasteryAchievement :=
    { timestamp := now
      concept := concept
      scores := scores
      overallScore := overallScore
      attemptsRequired := ((p?.map (fun p => p.totalAttempts)).getD 0)
      timeToMastery := (now : Int) - ((p?.map (fun p => p.firstSeenDate)).getD 0) }
  let s1 := { s with masteryHistory := aset concept (hist ++ [achievement]) s.masteryHistory }
  scheduleSpacedRepetition now concept true true s1

/-- Source `evaluateMastery(concept)` (lines 129–149).  Returns the boolean result and
the successor state: the source mutates `progress.masteryLevel`, and on
success appends an achievement and reschedules the review. -/
def evaluateMastery (now : Nat) (concept : String) (s : MasteryTracker) :
    Bool × MasteryTracker :=
  match alookup concept s.conceptProgress with
  | none => (false, s)
  | some p =>
    if p.totalAttempts < 3 then (false, s)
    else
      let scores := calculateMasteryScores s p
      let overallMastery := calculateOverallMastery scores
      let cp1 := aset concept { p with masteryLevel := overallMastery } s.conceptProgress
      let s1 := { s with conceptProgress := cp1 }
      if decide ((0.85 : Frac) ≤ overallMastery) && allComponentsMeetThreshold scores then
        (true, recordMasteryAchievement now concept scores overallMastery s1)
      else (false, s1)

/-- The pure decision part of `evaluateMastery`: whether the current
statistics of the concept satisfy the mastery criteria.  Proved equal to the
boolean component of `evaluateMastery` in `evaluateMastery_fst` below. -/
def masteryDecision (s : MasteryTracker) (concept : String) : Bool :=
  match alookup concept s.conceptProgress with
  | none => false
  | some p =>
    if p.totalAttempts < 3 then false
    else
      let scores := calculateMasteryScores s p
      decide ((0.85 : Frac) ≤ calculateOverallMastery scores) && allComponentsMeetThreshold scores

/-- Source `updateMovingAverage` (lines 419–422). -/
def updateMovingAverage (currentAverage newValue : Frac) (count : Nat) : Frac :=
  if count = 1 then newValue
  else (currentAverage * ((count : Frac) - 1) + newValue) / count

/-- Source `calculateConfidenceScore` (lines 462–469). -/
def calculateConfidenceScore (isCorrect : Bool) (attempts : Nat) (reasoningScore : Frac) : Frac :=
  let correctnessScore : Frac := if isCorrect then 1 else 0
  let efficiencyScore : Frac := max 0 ((4 - (attempts : Frac)) / 3)
  correctnessScore * 0.5 + efficiencyScore * 0.3 + reasoningScore * 0.2

/-- The fresh progress record created on first contact with a concept
(`updateConceptProgress`, lines 68–86). -/
def freshProgress (now : Nat) (concept : String) : ConceptProgress :=
  { concept := concept
    totalAttempts := 0
    correctAttempts := 0
    averageAttempts := 0
    averageTime := 0
    reasoningScores := []
    lastAttempt := none
    difficultyLevel := 1
    masteryLevel := 0
    consistencyScore := 0
    retentionScore := 0
    applicationScore := 0
    firstSeenDate := now
    lastMasteryCheck := now
    nextReviewDue := none }

/-- Source `updateConceptProgress(concept, attempt)` (lines 67–124).  The caller
(`recordAttempt`) has already pushed the attempt onto `attemptHistory`, so the
derived consistency/retention recomputations see it, as in the source. -/
def updateConceptProgress (now : Nat) (concept : String) (attempt : Attempt)
    (s : MasteryTracker) : MasteryTracker :=
  let p0 := (alookup concept s.conceptProgress).getD (freshProgress now concept)
  let totalAttempts := p0.totalAttempts + 1
  let correctAttempts := if attempt.isCorrect then p0.correctAttempts + 1 else p0.correctAttempts
  let averageAttempts := updateMovingAverage p0.averageAttempts (attempt.attempts : Frac) totalAttempts
  let averageTime := updateMovingAverage p0.averageTime (attempt.timeSpent : Frac) totalAttempts
  let pushed := p0.reasoningScores ++ [attempt.reasoningScore]
  let reasoningScores := if 10 < pushed.length then pushed.drop 1 else pushed
  let p1 := { p0 with
    totalAttempts := totalAttempts
    correctAttempts := correctAttempts
    averageAttempts := averageAttempts
    averageTime := averageTime
    reasoningScores := reasoningScores
    lastAttempt := some attempt
    lastMasteryCheck := now }
  let p2 := { p1 with
    consistencyScore := calculateConsistencyScoreVal s concept
    retentionScore := calculateRetentionScoreVal s concept }
  { s with conceptProgress := aset concept p2 s.conceptProgress }

/-- Source `recordAttempt(concept, isCorrect, attempts, timeSpent, reasoningScore,
context)` (lines 43–62): build the attempt, push it, update progress,
re-evaluate mastery, then (unconditionally, with `wasMastered = false`)
reschedule spaced repetition. -/
def recordAttempt (now : Nat) (concept : String) (isCorrect : Bool) (attempts : Nat)
    (timeSpent : Int) (reasoningScore : Frac) (context : String) (s : MasteryTracker) :
    Attempt × MasteryTracker :=
  let attempt : Attempt :=
    { timestamp := now
      concept := concept
      isCorrect := isCorrect
      attempts := attempts
      timeSpent := timeSpent
      reasoningScore := reasoningScore
      context := context
      confidence := calculateConfidenceScore isCorrect attempts reasoningScore }
  let s1 := { s with attemptHistory := s.attemptHistory ++ [attempt] }
  let s2 := updateConceptProgress now concept attempt s1
  let s3 := (evaluateMastery now concept s2).2
  let s4 := scheduleSpacedRepetition now concept isCorrect false s3
  (attempt, s4)

/-- Source `getRecentOverallPerformance(days)` (lines 498–506). -/
def getRecentOverallPerformance (s : MasteryTracker) (now : Nat) (days : Nat) : Frac :=
  let cutoff := now - days * 86400000
  let recentAttempts := s.attemptHistory.filter (fun a => cutoff ≤ a.timestamp)
  if recentAttempts.length = 0 then 0
  else ((recentAttempts.filter (fun a => a.isCorrect)).length : Frac) / recentAttempts.length

/-- A due-review entry built by `getConceptsDueForReview` (lines 332–353). -/
structure DueReview where
  concept : String
  overdue : Nat
  lastSeen : Option Nat
  masteryLevel : Frac
  priority : Frac
deriving DecidableEq

/-- Source `calculateReviewPriority` (lines 519–530). -/
def calculateReviewPriority (p : ConceptProgress) (overdueAmount : Nat) : Frac :=
  let masteryFactor := 1 - p.masteryLevel
  let overdueFactor := min ((overdueAmount : Frac) / 604800000) 1
  let consistencyFactor := 1 - p.consistencyScore
  masteryFactor * 0.4 + overdueFactor * 0.3 + consistencyFactor * 0.3

/-- Source `getConceptsDueForReview` (lines 332–353).  The `nextReview &&` truthiness
guard also skips a literal 0 timestamp, which is kept here.  The sort with
comparator `b.priority - a.priority` is a stable descending sort. -/
def getConceptsDueForReview (s : MasteryTracker) (now : Nat) : List DueReview :=
  let dueForReview := s.spacedRepetition.foldl
    (fun acc (kv : String × Nat) =>
      if kv.2 ≠ 0 && kv.2 ≤ now then
        match alookup kv.1 s.conceptProgress with
        | some p =>
          acc ++ [{ concept := kv.1
                    overdue := now - kv.2
                    lastSeen := p.lastAttempt.map (fun a => a.timestamp)
                    masteryLevel := p.masteryLevel
                    priority := calculateReviewPriority p (now - kv.2) }]
        | none => acc
      else acc) []
  insertionSort (fun a b => decide (b.priority ≤ a.priority)) dueForReview

/-- Source `every(concept => progress && this.evaluateMastery(concept))` from
`canProgress` (lines 295–298): JavaScript `every` short-circuits at the first
false, and `&&` skips `evaluateMastery` when the progress record is missing. -/
def masteredEvery (now : Nat) : List String → MasteryTracker → Bool × MasteryTracker
  | [], s => (true, s)
  | c :: rest, s =>
    match alookup c s.conceptProgress with
    | none => (false, s)
    | some _ =>
      let r := evaluateMastery now c s
      if r.1 then masteredEvery now rest r.2 else (false, r.2)

/-- Source `getUnmasteredConcepts` (lines 471–476): a filter whose predicate
re-invokes `evaluateMastery` (with its side effects) for every concept that
has a progress record. -/
def getUnmasteredConcepts (now : Nat) : List String → MasteryTracker → List String × MasteryTracker
  | [], s => ([], s)
  | c :: rest, s =>
    match alookup c s.conceptProgress with
    | none =>
      let r := getUnmasteredConcepts now rest s
      (c :: r.1, r.2)
    | some _ =>
      let e := evaluateMastery now c s
      let r := getUnmasteredConcepts now rest e.2
      (if e.1 then r.1 else c :: r.1, r.2)

/-- The weakest dimension picked in `getProgressionRecommendations`
(lines 487–491): `Object.entries(scores)` in insertion order, stable ascending
sort, first entry. -/
def weakestDimension (scores : MasteryScores) : String :=
  let entries : List (String × Frac) :=
    [("accuracy", scores.accuracy), ("consistency", scores.consistency),
     ("reasoning", scores.reasoning), ("retention", scores.retention),
     ("application", scores.application)]
  match (insertionSort (fun a b => decide (a.2 ≤ b.2)) entries).head? with
  | some e => e.1
  | none => ""

/-- Source `getProgressionRecommendations` of the tracker (lines 478–496). -/
def getProgressionRecommendationsT (now : Nat) (concepts : List String)
    (s : MasteryTracker) : List String × MasteryTracker :=
  let u := getUnmasteredConcepts now concepts s
  let recommendations := u.1.map (fun c =>
    match alookup c u.2.conceptProgress with
    | none => "Start learning: " ++ c
    | some p => "Improve " ++ weakestDimension (calculateMasteryScores u.2 p) ++ " for: " ++ c)
  (recommendations, u.2)

/-- Source `calculateReadinessScore` (lines 508–517). -/
def calculateReadinessScore (concepts : List String) (s : MasteryTracker) : Frac :=
  if concepts.length = 0 then 1
  else
    qsum (concepts.map (fun c =>
      ((alookup c s.conceptProgress).map (fun p => p.masteryLevel)).getD 0)) / concepts.length

/-- The result object of `MasteryTracker.canProgress`; the source returns
objects with different field sets per branch, modelled with options. -/
structure CanProgressResult where
  canProgress : Bool
  reason : Option String
  blockers : List String
  recommendations : List String
  currentPerformance : Option Frac
  requiredPerformance : Option Frac
  masteredConcepts : Option Nat
  overallPerformance : Option Frac
  readinessScore : Option Frac
deriving DecidableEq

/-- Source `MasteryTracker.canProgress(requiredConcepts, currentLevel)`
(lines 293–327).  `currentLevel` is accepted and unused, as in the source. -/
def canProgress (now : Nat) (requiredConcepts : List String) (currentLevel : Nat)
    (s : MasteryTracker) : CanProgressResult × MasteryTracker :=
  let _ := currentLevel
  let m := masteredEvery now requiredConcepts s
  if !m.1 then
    let b := getUnmasteredConcepts now requiredConcepts m.2
    let r := getProgressionRecommendationsT now requiredConcepts b.2
    ({ canProgress := false
       reason := some "Required concepts not mastered"
       blockers := b.1
       recommendations := r.1
       currentPerformance := none
       requiredPerformance := none
       masteredConcepts := none
       overallPerformance := none
       readinessScore := none }, r.2)
  else
    let recentPerformance := getRecentOverallPerformance m.2 now 7
    if recentPerformance < 0.85 then
      ({ canProgress := false
         reason := some "Recent performance below threshold"
         blockers := []
         recommendations := ["Review weak concepts", "Complete additional practice"]
         currentPerformance := some recentPerformance
         requiredPerformance := some 0.85
         masteredConcepts := none
         overallPerformance := none
         readinessScore := none }, m.2)
    else
      ({ canProgress := true
         reason := none
         blockers := []
         recommendations := []
         currentPerformance := none
         requiredPerformance := none
         masteredConcepts := some requiredConcepts.length
         overallPerformance := some recentPerformance
         readinessScore := some (calculateReadinessScore requiredConcepts m.2) }, m.2)

/-- One period entry of `calculatePerformanceTrends` (lines 532–554). -/
structure TrendEntry where
  period : String
  accuracy : Frac
  avgTime : Frac
  attempts : Nat
deriving DecidableEq

/-- Source `calculatePerformanceTrends` (lines 532–554). -/
def calculatePerformanceTrends (s : MasteryTracker) (now : Nat) : List TrendEntry :=
  [7, 14, 30].map (fun days =>
    let cutoff := now - days * 86400000
    let periodAttempts := s.attemptHistory.filter (fun a => cutoff ≤ a.timestamp)
    { period := toString days ++ " days"
      accuracy := if periodAttempts.length = 0 then 0
        else ((periodAttempts.filter (fun a => a.isCorrect)).length : Frac) / periodAttempts.length
      avgTime := if periodAttempts.length = 0 then 0
        else qsum (periodAttempts.map (fun a => (a.timeSpent : Frac))) / periodAttempts.length
      attempts := periodAttempts.length })

/-- An entry of `identifyWeakAreas` (lines 556–568). -/
structure WeakArea where
  concept : String
  masteryLevel : Frac
  accuracy : Frac
  consistency : Frac
deriving DecidableEq

/-- Source `identifyWeakAreas` (lines 556–568): all progress records mapped to score
summaries, stable ascending sort by mastery level, first five. -/
def identifyWeakAreas (s : MasteryTracker) : List WeakArea :=
  (insertionSort (fun a b => decide (a.masteryLevel ≤ b.masteryLevel))
    ((s.conceptProgress.map Prod.snd).map (fun p =>
      ({ concept := p.concept
         masteryLevel := p.masteryLevel
         accuracy := calculateAccuracyScore s p
         consistency := p.consistencyScore } : WeakArea)))).take 5

/-- An entry of `identifyStrengths` (lines 570–582). -/
structure StrengthEntry where
  concept : String
  masteryLevel : Frac
  consistency : Frac
deriving DecidableEq

/-- Source `identifyStrengths` (lines 570–582). -/
def identifyStrengths (s : MasteryTracker) : List StrengthEntry :=
  (insertionSort (fun a b => decide (b.masteryLevel ≤ a.masteryLevel))
    (((s.conceptProgress.map Prod.snd).filter
      (fun p => decide ((0.85 : Frac) ≤ p.masteryLevel))).map
      (fun p => ({ concept := p.concept
                   masteryLevel := p.masteryLevel
                   consistency := p.consistencyScore } : StrengthEntry)))).take 5

/-- The overview block of `getPerformanceAnalytics` (lines 401–408). -/
structure AnalyticsOverview where
  totalConcepts : Nat
  masteredConcepts : Nat
  masteryPercentage : Frac
  recentAccuracy : Frac
  averageAttemptsPerQuestion : Frac
deriving DecidableEq

/-- The full analytics object (lines 401–413). -/
structure PerformanceAnalytics where
  overview : AnalyticsOverview
  trends : List TrendEntry
  weakAreas : List WeakArea
  strengths : List StrengthEntry
  recommendations : List String
deriving DecidableEq

/-- Source `Array.from(this.conceptProgress.values()).filter(p =>
this.evaluateMastery(p.concept)).length` (lines 391–392): a left-to-right
filter over a snapshot of the progress values whose predicate mutates the
tracker; returns the count and the successor state. -/
def countMastered (now : Nat) : List ConceptProgress → MasteryTracker → Nat × MasteryTracker
  | [], s => (0, s)
  | p :: rest, s =>
    let e := evaluateMastery now p.concept s
    let r := countMastered now rest e.2
    ((if e.1 then r.1 + 1 else r.1), r.2)

/-- The recommendation-building tail of `generatePerformanceRecommendations`
(lines 584–607), run after the (never-returning) analytics call succeeds. -/
def recsFromAnalytics (analytics : PerformanceAnalytics) (s : MasteryTracker)
    (now : Nat) : List String :=
  let r1 := if analytics.overview.recentAccuracy < 0.7 then
      ["Focus on accuracy - review fundamental concepts"] else []
  let r2 := if (5 : Frac) / 2 < analytics.overview.averageAttemptsPerQuestion then
      ["Work on efficiency - practice quick problem recognition"] else []
  let weakAreas := identifyWeakAreas s
  let r3 := match weakAreas.head? with
    | some w => ["Priority review needed: " ++ w.concept]
    | none => []
  let dueReviews := getConceptsDueForReview s now
  let r4 := if dueReviews.length ≠ 0 then
      [toString dueReviews.length ++ " concepts due for review"] else []
  r1 ++ r2 ++ r3 ++ r4

/-- Source `getPerformanceAnalytics` (lines 389–414).  In the source this method and
`generatePerformanceRecommendations` (lines 584–607) call each other
unconditionally, so every call consumes the whole JavaScript call stack and
terminates with a thrown (catchable) `RangeError`.  The stack budget is the
explicit `fuel` parameter; the recursive call here stands for the
source's call chain `generatePerformanceRecommendations → getPerformanceAnalytics`,
and `generatePerformanceRecommendations` below is the same chain entered from
the other side.  The error payload carries the state mutated so far, because
the in-place `Map` mutations survive the unwinding. -/
def getPerformanceAnalytics : Nat → Nat → MasteryTracker →
    Except MasteryTracker (PerformanceAnalytics × MasteryTracker)
  | 0, _, s => .error s
  | fuel + 1, now, s =>
    let totalConcepts := s.conceptProgress.length
    let m := countMastered now (s.conceptProgress.map Prod.snd) s
    let recentAttempts := lastN m.2.attemptHistory 20
    let recentAccuracy : Frac := if recentAttempts.length = 0 then 0
      else ((recentAttempts.filter (fun a => a.isCorrect)).length : Frac) / recentAttempts.length
    let averageAttemptsPerQuestion : Frac := if recentAttempts.length = 0 then 0
      else qsum (recentAttempts.map (fun a => (a.attempts : Frac))) / recentAttempts.length
    match getPerformanceAnalytics fuel now m.2 with
    | .error s2 => .error s2
    | .ok (analytics, s2) =>
      let recommendations := recsFromAnalytics analytics s2 now
      .ok ({ overview :=
               { totalConcepts := totalConcepts
                 masteredConcepts := m.1
                 masteryPercentage := if totalConcepts = 0 then 0
                   else (m.1 : Frac) / totalConcepts
                 recentAccuracy := recentAccuracy
                 averageAttemptsPerQuestion := averageAttemptsPerQuestion }
             trends := calculatePerformanceTrends s2 now
             weakAreas := identifyWeakAreas s2
             strengths := identifyStrengths s2
             recommendations := recommendations }, s2)

/-- Source `generatePerformanceRecommendations` (lines 584–607): fetch the analytics
(which never returns normally) and turn them into recommendation strings. -/
def generatePerformanceRecommendations (fuel now : Nat) (s : MasteryTracker) :
    Except MasteryTracker (List String × MasteryTracker) :=
  match getPerformanceAnalytics fuel now s with
  | .error s' => .error s'
  | .ok (analytics, s') => .ok (recsFromAnalytics analytics s' now, s')

/-! ### ProgressionGate data model (src/js/mechanics/ProgressionGate.js) -/

/-- The learner profile consumed by the gate (`learnerProfile`). -/
structure LearnerProfile where
  id : String
  level : Nat
  experience : Nat
  lastLearningSession : Option Nat
deriving DecidableEq

/-- One entry of `gateRules.levelRequirements` (`initializeLevelRequirements`,
lines 490–522). -/
structure LevelRequirement where
  requiredConcepts : List String
  masteryThreshold : Frac
  minTimeSpent : Nat
  retentionTestRequired : Bool
deriving DecidableEq

/-- Source `getLevelRequirements(level)` (lines 527–534) over the table installed by
`initializeLevelRequirements` (lines 490–522), with the conservative default
for unknown levels. -/
def getLevelRequirements (level : Nat) : LevelRequirement :=
  if level = 2 then
    ⟨["basic-arithmetic", "reading-comprehension"], 0.80, 180000, false⟩
  else if level = 3 then
    ⟨["problem-solving-basics", "logical-reasoning"], 0.85, 300000, true⟩
  else if level = 4 then
    ⟨["analytical-thinking", "pattern-recognition", "concept-application"], 0.87, 450000, true⟩
  else if level = 5 then
    ⟨["advanced-problem-solving", "creative-application", "knowledge-transfer"], 0.90, 600000, true⟩
  else ⟨[], 0.85, 300000, true⟩

/-- The heterogeneous blocker objects pushed by the gate, one constructor per
object shape in the source. -/
inductive Blocker
  | levelSequence (current target required : Nat)
  | alreadyAchieved (current target : Nat)
  | coolingPeriod (reason : String) (duration : Nat)
  | retentionPeriod (timeSince : Int) (required : Nat) (remaining : Int)
  | applicationRequirement (current required : Frac) (contexts : List String)
  | overdueReviews (count : Nat) (concepts : List String)
deriving DecidableEq

/-- The heterogeneous requirement objects pushed by the gate, one constructor
per object shape in the source.  (`conceptMastery` is the shape at lines
167–171; constructing it in the source evaluates
`masteryTracker.getMasteryStatus(concept)`, a method `MasteryTracker` does not
define, so that push always throws a `TypeError` instead — see
`masteryEvidenceLoop`.) -/
inductive Requirement
  | conceptMastery (concept : String)
  | performanceStandard (current required : Frac)
  | consistencyStandard (current required : Frac)
  | dimensionGap (dimension : String) (current required gap : Frac)
  | insufficientAttempts (current required : Nat)
  | insufficientTime (current required : Nat)
  | challengeArea (area : String)
deriving DecidableEq

/-- The evidence object built by `compileComprehensiveEvidence`
(lines 577–589). -/
structure GateEvidence where
  accuracy : Frac
  consistency : Frac
  retention : Frac
  application : Frac
  reasoning : Frac
  totalAttempts : Nat
  totalTimeSpent : Nat
deriving DecidableEq

/-- The evaluation object threaded through `evaluateProgression`
(lines 48–56). -/
structure Evaluation where
  canProgress : Bool
  reason : String
  requirements : List Requirement
  evidence : Option GateEvidence
  recommendations : List String
  blockers : List Blocker
  timeline : Option Int
deriving DecidableEq

/-- The initial evaluation object (lines 48–56). -/
def emptyEvaluation : Evaluation :=
  { canProgress := false, reason := "", requirements := [], evidence := none
    recommendations := [], blockers := [], timeline := none }

/-- The profile snapshot stored inside a decision (lines 378–382). -/
structure ProfileSnapshot where
  id : String
  level : Nat
  experience : Nat
deriving DecidableEq

/-- One audit record (`recordProgressionDecision`, lines 375–403). -/
structure ProgressionDecision where
  timestamp : Nat
  learnerProfile : ProfileSnapshot
  targetLevel : Nat
  decision : String
  reason : String
  evidence : Option GateEvidence
  requirements : List Requirement
  systemVersion : String
deriving DecidableEq

/-- One blocked-attempt counter entry (`recordBlockedAttempt`, lines 408–425). -/
structure BlockedAttempt where
  timestamp : Nat
  learnerId : String
  targetLevel : Nat
  reason : String
  attempts : Nat
  lastAttempt : Option Nat
deriving DecidableEq

/-- The mutable state of a `ProgressionGate` instance.  (`masteryEvidence` is
declared in the constructor but never written or read; it is omitted.) -/
structure ProgressionGate where
  progressionHistory : List (String × List ProgressionDecision)
  blockedAttempts : List (String × BlockedAttempt)
deriving DecidableEq

/-- A fresh gate (the constructor). -/
def pgEmpty : ProgressionGate := ⟨[], []⟩

/-- Source `getRecentBlockedAttempts(learnerId, hours = 24)` (lines 595–606): the
blocked-attempt entries of the learner whose (first-block) timestamp is within
the window.  One entry exists per (learner, targetLevel) key, however many
blocks it has counted. -/
def getRecentBlockedAttempts (g : ProgressionGate) (learnerId : String)
    (now : Nat) (hours : Nat) : List BlockedAttempt :=
  let cutoff := now - hours * 3600000
  (g.blockedAttempts.map Prod.snd).filter
    (fun a => a.learnerId == learnerId && cutoff ≤ a.timestamp)

/-- Source `checkActiveRestrictions` (lines 536–553). -/
def checkActiveRestrictions (g : ProgressionGate) (profile : LearnerProfile)
    (now : Nat) : List Blocker :=
  if 3 < (getRecentBlockedAttempts g profile.id now 24).length then
    [Blocker.coolingPeriod "Too many recent failed progression attempts" 3600000]
  else []

/-- The result object of `checkBasicEligibility`. -/
structure EligibilityResult where
  eligible : Bool
  reason : String
  blockers : List Blocker
deriving DecidableEq

/-- Source `checkBasicEligibility` (lines 110–148): three sequential checks; each
failure overwrites `reason` (a later failing check wins) and appends its
blockers. -/
def checkBasicEligibility (g : ProgressionGate) (profile : LearnerProfile)
    (targetLevel : Nat) (now : Nat) : EligibilityResult :=
  let r0 : EligibilityResult := ⟨true, "", []⟩
  let r1 := if profile.level + 1 < targetLevel then
      (⟨false, "Cannot skip levels",
        r0.blockers ++ [Blocker.levelSequence profile.level targetLevel (profile.level + 1)]⟩ :
        EligibilityResult)
    else r0
  let r2 := if targetLevel ≤ profile.level then
      (⟨false, "Already at or above target level",
        r1.blockers ++ [Blocker.alreadyAchieved profile.level targetLevel]⟩ : EligibilityResult)
    else r1
  let restrictions := checkActiveRestrictions g profile now
  if restrictions.length ≠ 0 then
    ⟨false, "Active learning restrictions in place", r2.blockers ++ restrictions⟩
  else r2

/-- The result object of `verifyMasteryEvidence`. -/
structure MasteryCheck where
  sufficient : Bool
  missingRequirements : List Requirement
  recommendations : List String
deriving DecidableEq

/-- The `requirements.requiredConcepts.forEach` loop of
`verifyMasteryEvidence` (lines 163–174).  For an unmastered concept the loop
body evaluates `masteryTracker.getMasteryStatus(concept)` while building the
missing-requirement object — `MasteryTracker` defines no such method, so a
`TypeError` is thrown there and aborts the iteration; the error carries the
tracker state mutated so far (`evaluateMastery` has side effects). -/
def masteryEvidenceLoop (now : Nat) : List String → MasteryTracker →
    Except MasteryTracker MasteryTracker
  | [], t => .ok t
  | c :: rest, t =>
    let e := evaluateMastery now c t
    if e.1 then masteryEvidenceLoop now rest e.2
    else .error e.2

/-- Source `calculateOverallConsistency` (lines 555–559): delegates to the tracker's
analytics (which always throw; the `|| 0` fallback maps a zero accuracy to 0,
the identity). -/
def calculateOverallConsistency (fuel now : Nat) (t : MasteryTracker) :
    Except MasteryTracker (Frac × MasteryTracker) :=
  match getPerformanceAnalytics fuel now t with
  | .error t' => .error t'
  | .ok (analytics, t') => .ok (analytics.overview.recentAccuracy, t')

/-- Source `verifyMasteryEvidence` (lines 154–201). -/
def verifyMasteryEvidence (profile : LearnerProfile) (targetLevel : Nat)
    (fuel now : Nat) (t : MasteryTracker) :
    Except MasteryTracker (MasteryCheck × MasteryTracker) :=
  let _ := profile
  let requirements := getLevelRequirements targetLevel
  match masteryEvidenceLoop now requirements.requiredConcepts t with
  | .error t' => .error t'
  | .ok t1 =>
    let performance := getRecentOverallPerformance t1 now 7
    let perfFail := performance < (0.85 : Frac)
    let m1 : List Requirement := if perfFail then
        [Requirement.performanceStandard performance 0.85] else []
    let rec1 : List String := if perfFail then
        ["Improve overall accuracy through additional practice"] else []
    match calculateOverallConsistency fuel now t1 with
    | .error t2 => .error t2
    | .ok (consistency, t2) =>
      let consFail := consistency < (0.80 : Frac)
      let m2 : List Requirement := if consFail then
          [Requirement.consistencyStandard consistency 0.80] else []
      let rec2 : List String := if consFail then
          ["Demonstrate more consistent performance over time"] else []
      .ok ({ sufficient := !perfFail && !consFail
             missingRequirements := m1 ++ m2
             recommendations := rec1 ++ rec2 }, t2)

/-- The result object of `checkRetentionAndApplication`. -/
structure RetentionCheck where
  passed : Bool
  blockers : List Blocker
  recommendedTimeline : Option Int
deriving DecidableEq

/-- Source `getLastMajorLearningTime` (lines 561–564); `||` falls through on a
missing or 0 session time. -/
def getLastMajorLearningTime (profile : LearnerProfile) (now : Nat) : Nat :=
  match profile.lastLearningSession with
  | some ts => if ts = 0 then now - 86400000 else ts
  | none => now - 86400000

/-- Source `checkApplicationSuccess` (lines 566–575): fetches the analytics (always
throwing) and would otherwise return the hard-coded sufficient result. -/
def checkApplicationSuccess (fuel now : Nat) (t : MasteryTracker) :
    Except MasteryTracker ((Bool × Frac × List String) × MasteryTracker) :=
  match getPerformanceAnalytics fuel now t with
  | .error t' => .error t'
  | .ok (_, t') => .ok ((true, 0.85, ["practice", "assessment"]), t')

/-- Source `checkRetentionAndApplication` (lines 206–255). -/
def checkRetentionAndApplication (profile : LearnerProfile) (fuel now : Nat)
    (t : MasteryTracker) : Except MasteryTracker (RetentionCheck × MasteryTracker) :=
  let lastMajorLearning := getLastMajorLearningTime profile now
  let timeSincelearning : Int := (now : Int) - lastMajorLearning
  let retFail := timeSincelearning < 86400000
  let b1 : List Blocker := if retFail then
      [Blocker.retentionPeriod timeSincelearning 86400000 (86400000 - timeSincelearning)]
    else []
  let tl1 : Option Int := if retFail then
      some ((now : Int) + (86400000 - timeSincelearning)) else none
  match checkApplicationSuccess fuel now t with
  | .error t' => .error t'
  | .ok (app, t1) =>
    let appFail := !app.1
    let b2 : List Blocker := if appFail then
        [Blocker.applicationRequirement app.2.1 0.80 app.2.2] else []
    let spacedRepetitionResults := getConceptsDueForReview t1 now
    let overdueReviews := spacedRepetitionResults.filter (fun r => 0 < r.overdue)
    let odFail := overdueReviews.length ≠ 0
    let b3 : List Blocker := if odFail then
        [Blocker.overdueReviews overdueReviews.length (overdueReviews.map (fun r => r.concept))]
      else []
    .ok ({ passed := !retFail && !appFail && !odFail
           blockers := b1 ++ b2 ++ b3
           recommendedTimeline := tl1 }, t1)

/-- Source `compileComprehensiveEvidence` (lines 577–589). -/
def compileComprehensiveEvidence (fuel now : Nat) (t : MasteryTracker) :
    Except MasteryTracker (GateEvidence × MasteryTracker) :=
  match getPerformanceAnalytics fuel now t with
  | .error t' => .error t'
  | .ok (analytics, t') =>
    .ok ({ accuracy := analytics.overview.recentAccuracy
           consistency := analytics.overview.recentAccuracy
           retention := 0.85
           application := 0.80
           reasoning := 0.85
           totalAttempts := 10
           totalTimeSpent := 600000 }, t')

/-- Source `compileProgressionEvidence` (lines 591–593) delegates to
`compileComprehensiveEvidence`. -/
def compileProgressionEvidence (fuel now : Nat) (t : MasteryTracker) :
    Except MasteryTracker (GateEvidence × MasteryTracker) :=
  compileComprehensiveEvidence fuel now t

/-- Source `Object.entries(this.gateRules.mastery)` in declaration order
(lines 9–15). -/
def gateMasteryRules : List (String × Frac) :=
  [("accuracy", 0.85), ("consistency", 0.80), ("retention", 0.75),
   ("application", 0.80), ("reasoning", 0.75)]

/-- Field access `evidence[dimension]` for the five dimension names. -/
def evidenceDim (e : GateEvidence) : String → Frac
  | "accuracy" => e.accuracy
  | "consistency" => e.consistency
  | "retention" => e.retention
  | "application" => e.application
  | "reasoning" => e.reasoning
  | _ => 0

/-- The result object of `applyStrictCriteria`. -/
structure StrictResult where
  passed : Bool
  reason : String
  missingRequirements : List Requirement
deriving DecidableEq

/-- Source `applyStrictCriteria(evidence)` (lines 295–341): each failing check
appends one missing requirement; `passed` is false exactly when some check
failed. -/
def applyStrictCriteria (e : GateEvidence) : StrictResult :=
  let dimMissing := gateMasteryRules.foldl
    (fun acc (dr : String × Frac) =>
      if evidenceDim e dr.1 < dr.2 then
        acc ++ [Requirement.dimensionGap dr.1 (evidenceDim e dr.1) dr.2 (dr.2 - evidenceDim e dr.1)]
      else acc) []
  let m2 : List Requirement := if e.totalAttempts < 3 then
      [Requirement.insufficientAttempts e.totalAttempts 3] else []
  let m3 : List Requirement := if e.totalTimeSpent < 300000 then
      [Requirement.insufficientTime e.totalTimeSpent 300000] else []
  let missing := dimMissing ++ m2 ++ m3
  { passed := missing.isEmpty
    reason := if missing.isEmpty then "" else "Strict mastery criteria not met"
    missingRequirements := missing }

/-- The four `Math.random()` draws of `performChallengeAssessment`
(lines 350–355), passed in as explicit inputs: `accuracy` and
`timeEfficiency` are drawn from [0.7, 1.0), `reasoning` and `application`
from [0.6, 1.0). -/
structure ChallengeDraw where
  accuracy : Frac
  reasoning : Frac
  application : Frac
  timeEfficiency : Frac
deriving DecidableEq

/-- Field access `simulatedChallenge[area]`: `consistency` and `retention`
are absent from the simulated challenge (`undefined`). -/
def challengeDim (c : ChallengeDraw) : String → Option Frac
  | "accuracy" => some c.accuracy
  | "reasoning" => some c.reasoning
  | "application" => some c.application
  | _ => none

/-- The result object of `performChallengeAssessment`. -/
structure ChallengeResult where
  passed : Bool
  failedAreas : List String
deriving DecidableEq

/-- Source `performChallengeAssessment` (lines 346–370).  The guard
`simulatedChallenge[area] && simulatedChallenge[area] < threshold` skips
absent areas and (by JavaScript truthiness) a literal 0 draw. -/
def performChallengeAssessment (draw : ChallengeDraw) : ChallengeResult :=
  let failed := gateMasteryRules.foldl
    (fun acc (ar : String × Frac) =>
      match challengeDim draw ar.1 with
      | some v => if v ≠ 0 && v < ar.2 then acc ++ [ar.1] else acc
      | none => acc) []
  { passed := failed.isEmpty, failedAreas := failed }

/-- The result object of `performFinalGateEvaluation`. -/
structure GateResult where
  passed : Bool
  reason : String
  requirements : List Requirement
deriving DecidableEq

/-- Source `performFinalGateEvaluation` (lines 260–290). -/
def performFinalGateEvaluation (profile : LearnerProfile) (targetLevel : Nat)
    (draw : ChallengeDraw) (fuel now : Nat) (t : MasteryTracker) :
    Except MasteryTracker (GateResult × MasteryTracker) :=
  let _ := profile
  let _ := targetLevel
  match compileComprehensiveEvidence fuel now t with
  | .error t' => .error t'
  | .ok (evidence, t1) =>
    let evaluationResult := applyStrictCriteria evidence
    if evaluationResult.passed then
      let challengeResult := performChallengeAssessment draw
      if challengeResult.passed then
        .ok ({ passed := true
               reason := "All requirements met with demonstrated mastery"
               requirements := [] }, t1)
      else
        .ok ({ passed := false
               reason := "Challenge assessment failed"
               requirements := challengeResult.failedAreas.map Requirement.challengeArea }, t1)
    else
      .ok ({ passed := false
             reason := evaluationResult.reason
             requirements := evaluationResult.missingRequirements }, t1)

/-- Source `recordBlockedAttempt` (lines 408–425): keyed by `id + "-" + targetLevel`;
an existing entry increments its counter and refreshes `lastAttempt` but keeps
its original `timestamp`. -/
def recordBlockedAttempt (profile : LearnerProfile) (targetLevel : Nat)
    (reason : String) (now : Nat) (g : ProgressionGate) : ProgressionGate :=
  let key := profile.id ++ "-" ++ toString targetLevel
  match alookup key g.blockedAttempts with
  | some existing =>
    let updated := { existing with attempts := existing.attempts + 1, lastAttempt := some now }
    { g with blockedAttempts := aset key updated g.blockedAttempts }
  | none =>
    let attempt : BlockedAttempt :=
      { timestamp := now, learnerId := profile.id, targetLevel := targetLevel
        reason := reason, attempts := 1, lastAttempt := none }
    { g with blockedAttempts := aset key attempt g.blockedAttempts }

/-- The decision record built by `recordProgressionDecision` (lines 376–389);
`learnerProfile.id || 'anonymous'` falls through on the empty id. -/
def mkDecision (profile : LearnerProfile) (targetLevel : Nat) (ev : Evaluation)
    (now : Nat) : ProgressionDecision :=
  { timestamp := now
    learnerProfile :=
      { id := if profile.id = "" then "anonymous" else profile.id
        level := profile.level
        experience := profile.experience }
    targetLevel := targetLevel
    decision := if ev.canProgress then "ALLOW" else "BLOCK"
    reason := ev.reason
    evidence := ev.evidence
    requirements := ev.requirements
    systemVersion := "1.0" }

/-- Source `recordProgressionDecision` (lines 375–403): append the decision to the
learner's history (keyed by the raw `learnerProfile.id`), count a blocked
attempt when the decision is a BLOCK, and return the evaluation unchanged. -/
def recordProgressionDecision (profile : LearnerProfile) (targetLevel : Nat)
    (ev : Evaluation) (now : Nat) (g : ProgressionGate) : Evaluation × ProgressionGate :=
  let decision := mkDecision profile targetLevel ev now
  let hist := (alookup profile.id g.progressionHistory).getD []
  let newHistory := aset profile.id (hist ++ [decision]) g.progressionHistory
  let g1 := { g with progressionHistory := newHistory }
  let g2 := if !ev.canProgress then recordBlockedAttempt profile targetLevel ev.reason now g1
    else g1
  (ev, g2)

/-- The catch-branch reason string (line 102). -/
def evalErrorReason : String := "Evaluation system error - progression blocked for safety"

/-- Source `evaluateProgression(learnerProfile, targetLevel, masteryTracker)`
(lines 47–105).  The four gates run inside one `try`; a thrown error from any
of them (modelled by the `Except` error branches) lands in the `catch`, which
blocks with `evalErrorReason`.  Every path returns through
`recordProgressionDecision`.  Returns (evaluation, gate state, tracker state). -/
def evaluateProgression (profile : LearnerProfile) (targetLevel : Nat)
    (t : MasteryTracker) (g : ProgressionGate) (draw : ChallengeDraw)
    (fuel now : Nat) : Evaluation × ProgressionGate × MasteryTracker :=
  let eligibilityCheck := checkBasicEligibility g profile targetLevel now
  if !eligibilityCheck.eligible then
    let ev := { emptyEvaluation with
      reason := eligibilityCheck.reason, blockers := eligibilityCheck.blockers }
    let r := recordProgressionDecision profile targetLevel ev now g
    (r.1, r.2, t)
  else
    match verifyMasteryEvidence profile targetLevel fuel now t with
    | .error t' =>
      let ev := { emptyEvaluation with reason := evalErrorReason }
      let r := recordProgressionDecision profile targetLevel ev now g
      (r.1, r.2, t')
    | .ok (masteryCheck, t1) =>
      if !masteryCheck.sufficient then
        let ev := { emptyEvaluation with
          reason := "Insufficient mastery evidence"
          requirements := masteryCheck.missingRequirements
          recommendations := masteryCheck.recommendations }
        let r := recordProgressionDecision profile targetLevel ev now g
        (r.1, r.2, t1)
      else
        match checkRetentionAndApplication profile fuel now t1 with
        | .error t2 =>
          let ev := { emptyEvaluation with reason := evalErrorReason }
          let r := recordProgressionDecision profile targetLevel ev now g
          (r.1, r.2, t2)
        | .ok (retentionCheck, t2) =>
          if !retentionCheck.passed then
            let ev := { emptyEvaluation with
              reason := "Retention or application requirements not met"
              blockers := retentionCheck.blockers
              timeline := retentionCheck.recommendedTimeline }
            let r := recordProgressionDecision profile targetLevel ev now g
            (r.1, r.2, t2)
          else
            match performFinalGateEvaluation profile targetLevel draw fuel now t2 with
            | .error t3 =>
              let ev := { emptyEvaluation with reason := evalErrorReason }
              let r := recordProgressionDecision profile targetLevel ev now g
              (r.1, r.2, t3)
            | .ok (gateEvaluation, t3) =>
              if !gateEvaluation.passed then
                let ev := { emptyEvaluation with
                  reason := gateEvaluation.reason
                  requirements := gateEvaluation.requirements }
                let r := recordProgressionDecision profile targetLevel ev now g
                (r.1, r.2, t3)
              else
                match compileProgressionEvidence fuel now t3 with
                | .error t4 =>
                  let ev := { emptyEvaluation with reason := evalErrorReason }
                  let r := recordProgressionDecision profile targetLevel ev now g
                  (r.1, r.2, t4)
                | .ok (evidence, t4) =>
                  let ev := { emptyEvaluation with
                    canProgress := true
                    reason := "All mastery requirements met"
                    evidence := some evidence }
                  let r := recordProgressionDecision profile targetLevel ev now g
                  (r.1, r.2, t4)

/-! ### JustificationValidator (src/js/mechanics/JustificationValidator.js)

String handling is modelled for ASCII text (all inputs used below are ASCII):
`toLowerCase`/`trim` agree with `Char.toLower`/`String.trim` there, and the
`\w` character class is `[A-Za-z0-9_]`. -/

/-- JavaScript `String.prototype.trim` over ASCII whitespace (the library
`String.trim` does not reduce in the kernel). -/
def jsTrim (s : String) : String :=
  let ws := fun c => c == ' ' || c == '\t' || c == '\n' || c == '\r'
  String.mk (((s.toList.dropWhile ws).reverse.dropWhile ws).reverse)

/-- Whether the list starts with the given pattern. -/
def listStartsWith : List Char → List Char → Bool
  | _, [] => true
  | [], _ :: _ => false
  | c :: cs, p :: ps => c == p && listStartsWith cs ps

/-- Whether the list ends with the given pattern. -/
def listEndsWith (l pat : List Char) : Bool :=
  listStartsWith l.reverse pat.reverse

/-- JavaScript `String.prototype.includes`: substring search. -/
def listIncludes (needle : List Char) : List Char → Bool
  | [] => needle.isEmpty
  | c :: rest => listStartsWith (c :: rest) needle || listIncludes needle rest

/-- Source `haystack.includes(needle)`. -/
def strIncludes (haystack needle : String) : Bool :=
  listIncludes needle.toList haystack.toList

/-- Source `String.prototype.toLowerCase` (ASCII). -/
def strLower (s : String) : String := String.mk (s.toList.map Char.toLower)

/-- The `\w` class of JavaScript regexes, over ASCII. -/
def isWordChar (c : Char) : Bool := c.isAlphanum || c == '_'

/-- Maximal word-character runs with their start positions (`\b\w+\b`
matches, in order). -/
def wordRunsAux : List Char → Nat → Option (Nat × List Char) → List (Nat × List Char)
  | [], _, cur => match cur with | some r => [(r.1, r.2.reverse)] | none => []
  | c :: cs, i, cur =>
    if isWordChar c then
      match cur with
      | some r => wordRunsAux cs (i + 1) (some (r.1, c :: r.2))
      | none => wordRunsAux cs (i + 1) (some (i, [c]))
    else
      (match cur with | some r => [(r.1, r.2.reverse)] | none => []) ++
        wordRunsAux cs (i + 1) none

/-- The word tokens of a string with their positions. -/
def wordRuns (s : String) : List (Nat × String) :=
  (wordRunsAux s.toList 0 none).map (fun r => (r.1, String.mk r.2))

/-- The word tokens of a string. -/
def tokensOf (s : String) : List String := (wordRuns s).map Prod.snd

/-- Source `\bw\b` for an all-word-character pattern `w`: `w` occurs as a whole
token. -/
def containsWholeWord (text w : String) : Bool := (tokensOf text).contains w

/-- Drop tokens up to and including the first satisfying the predicate. -/
def dropUntilTok (p : String → Bool) : List String → Option (List String)
  | [] => none
  | x :: rest => if p x then some rest else dropUntilTok p rest

/-- Source `commonFlaws.circular`: `/\b(\w+).*\bbecause.*\1\b/i` on the lowercased
text.  The capture starts at a word boundary (a run start), `\bbecause` is a
run starting with `because`, and the backreference must end at a word
boundary (a run suffix) starting at or after the end of `because`. -/
def circularFlaw (t : String) : Bool :=
  let runs := wordRuns t
  runs.any (fun br =>
    listStartsWith br.2.toList "because".toList &&
    runs.any (fun ar =>
      (List.range ar.2.length).any (fun lpred =>
        let len := lpred + 1
        decide (ar.1 + len ≤ br.1) &&
        let w := ar.2.toList.take len
        runs.any (fun cr =>
          decide (len ≤ cr.2.length) &&
          decide (br.1 + 7 ≤ cr.1 + cr.2.length - len) &&
          listEndsWith cr.2.toList w))))

/-- Source `commonFlaws.unsupported`: `/\b(always|never|all|none)\b/i`. -/
def unsupportedFlaw (t : String) : Bool :=
  containsWholeWord t "always" || containsWholeWord t "never" ||
  containsWholeWord t "all" || containsWholeWord t "none"

/-- Source `commonFlaws.emotional`:
`/\b(obviously|clearly|definitely)\b.*\bwithout\b.*\brevidence\b/i`
(the `revidence` typo is the source's). -/
def emotionalFlaw (t : String) : Bool :=
  let toks := tokensOf t
  match dropUntilTok (fun w => w == "obviously" || w == "clearly" || w == "definitely") toks with
  | none => false
  | some r1 =>
    match dropUntilTok (fun w => w == "without") r1 with
    | none => false
    | some r2 => (dropUntilTok (fun w => w == "revidence") r2).isSome

/-- Source `commonFlaws.informal`: `/\b(like|kinda|sorta|whatever)\b/i`. -/
def informalFlaw (t : String) : Bool :=
  containsWholeWord t "like" || containsWholeWord t "kinda" ||
  containsWholeWord t "sorta" || containsWholeWord t "whatever"

/-- Source `this.reasoningPatterns` (lines 15–21). -/
def causalPatterns : List String := ["because", "due to", "caused by", "results in", "leads to"]
def evidencePatterns : List String := ["shows", "demonstrates", "proves", "indicates", "supports"]
def logicalPatterns : List String := ["therefore", "thus", "consequently", "hence", "so"]
def conditionalPatterns : List String := ["if", "when", "unless", "provided that", "assuming"]
def comparisonPatterns : List String :=
  ["similar to", "different from", "unlike", "whereas", "compared to"]

/-- Source `this.qualityIndicators.depth` (line 24). -/
def depthIndicators : List String := ["analyze", "examine", "consider", "evaluate", "interpret"]

/-- Source `detectLogicalFallacies` (lines 410–432), flaw order as in
`this.commonFlaws` followed by the straw-man and false-dichotomy checks. -/
def detectLogicalFallacies (reasoning : String) : List String :=
  let text := strLower reasoning
  let f1 := if circularFlaw text then ["circular"] else []
  let f2 := if unsupportedFlaw text then ["unsupported"] else []
  let f3 := if emotionalFlaw text then ["emotional"] else []
  let f4 := if informalFlaw text then ["informal"] else []
  let f5 := if strIncludes text "people say" || strIncludes text "everyone thinks" then
      ["straw-man"] else []
  let f6 := if strIncludes text "either" && strIncludes text "or" && !strIncludes text "could be" then
      ["false-dichotomy"] else []
  f1 ++ f2 ++ f3 ++ f4 ++ f5 ++ f6

/-- Split on any of the given characters; with the subsequent
`trim().length > 0` filter this counts the same sentences as the source's
split on `/[.!?]+/` (runs of separators only add empty pieces, which the
filter discards). -/
def splitOnChars (seps : List Char) (l : List Char) : List String :=
  (l.foldr (fun c (acc : List (List Char)) =>
    if seps.contains c then [] :: acc
    else match acc with
      | h :: t => (c :: h) :: t
      | [] => [[c]]) [[]]).map String.mk

/-- Source `assessClarity(reasoning)` (lines 87–118). -/
def assessClarity (reasoning : String) : Frac :=
  let text := strLower reasoning
  let base : Frac := 0.5
  let sentences := (splitOnChars ['.', '!', '?'] reasoning.toList).filter
    (fun s => 0 < (jsTrim s).length)
  let s1 := base + (if 1 < sentences.length then (0.1 : Frac) else 0)
  let clarityIndicators : List String := ["first", "next", "then", "finally", "in summary"]
  let s2 := s1 + ((clarityIndicators.filter (fun p => strIncludes text p)).length : Frac) * 0.05
  let unclearPhrases : List String := ["this thing", "that stuff", "it", "something"]
  let s3 := s2 - ((unclearPhrases.filter (fun p => strIncludes text p)).length : Frac) * 0.05
  let wordCount := (splitOnChars [' '] text.toList).length
  let s4 := s3 + (if 15 ≤ wordCount && wordCount ≤ 100 then (0.1 : Frac)
    else if wordCount < 10 then (-0.2 : Frac)
    else if 150 < wordCount then (-0.1 : Frac)
    else 0)
  max 0 (min 1 s4)

/-- Source `hasValidPremiseConclusion` (lines 392–401). -/
def hasValidPremiseConclusion (reasoning : String) : Bool :=
  let text := strLower reasoning
  let premiseIndicators : List String := ["given", "since", "because", "assuming"]
  let conclusionIndicators : List String := ["therefore", "thus", "so", "hence", "consequently"]
  premiseIndicators.any (fun i => strIncludes text i) &&
    conclusionIndicators.any (fun i => strIncludes text i)

/-- Source `hasSequentialReasoning` (lines 403–408). -/
def hasSequentialReasoning (reasoning : String) : Bool :=
  let text := strLower reasoning
  let sequenceIndicators : List String := ["first", "next", "then", "finally", "step"]
  2 ≤ (sequenceIndicators.filter (fun i => strIncludes text i)).length

/-- The question metadata consumed by the validator: its text, its `type`
tag, and `requiredConcepts`. -/
structure Question where
  text : String
  qtype : String
  requiredConcepts : List String
deriving DecidableEq

/-- The learner's answer, as far as the validator inspects it
(`typeof answer === 'number'`). -/
inductive Answer
  | num (value : Frac)
  | other
deriving DecidableEq

/-- Source `assessLogicalStructure(reasoning, question)` (lines 123–149); the
`question` parameter is unused in the source body too. -/
def assessLogicalStructure (reasoning : String) (question : Question) : Frac :=
  let _ := question
  let text := strLower reasoning
  let base : Frac := 0.3
  let categoryBonus := fun (patterns : List String) =>
    min (((patterns.filter (fun p => strIncludes text p)).length : Frac) * 0.1) 0.3
  let s1 := base + categoryBonus causalPatterns + categoryBonus evidencePatterns +
    categoryBonus logicalPatterns + categoryBonus conditionalPatterns +
    categoryBonus comparisonPatterns
  let s2 := s1 + (if hasValidPremiseConclusion reasoning then (0.2 : Frac) else 0)
  let s3 := s2 + (if hasSequentialReasoning reasoning then (0.15 : Frac) else 0)
  let s4 := s3 - ((detectLogicalFallacies reasoning).length : Frac) * 0.1
  max 0 (min 1 s4)

/-- Source `identifyRelevantConcepts` (lines 434–446). -/
def identifyRelevantConcepts (reasoning : String) (question : Question) : List String :=
  question.requiredConcepts.filter (fun c => strIncludes (strLower reasoning) (strLower c))

/-- Source `detectUnsupportedClaims` (lines 448–462): substring checks, as in the
source. -/
def detectUnsupportedClaims (reasoning : String) : List String :=
  let text := strLower reasoning
  let c1 := if strIncludes text "always" && !strIncludes text "because" then
      ["absolute-claim-always"] else []
  let c2 := if strIncludes text "never" && !strIncludes text "because" then
      ["absolute-claim-never"] else []
  c1 ++ c2

/-- Source `assessEvidence(reasoning, question)` (lines 155–186). -/
def assessEvidence (reasoning : String) (question : Question) : Frac :=
  let text := strLower reasoning
  let base : Frac := 0.3
  let s1 := base + ((evidencePatterns.filter (fun p => strIncludes text p)).length : Frac) * 0.1
  let exampleIndicators : List String := ["example", "instance", "case", "such as"]
  let s2 := s1 + ((exampleIndicators.filter (fun p => strIncludes text p)).length : Frac) * 0.1
  let s3 := s2 + (if text.toList.any Char.isDigit then (0.1 : Frac) else 0)
  let conceptsUsed := identifyRelevantConcepts reasoning question
  let s4 := s3 + min ((conceptsUsed.length : Frac) * 0.05) 0.2
  let s5 := s4 - ((detectUnsupportedClaims reasoning).length : Frac) * 0.05
  max 0 (min 1 s5)

/-- Source `getRequiredReasoningElements(question)` (lines 464–477). -/
def getRequiredReasoningElements (question : Question) : List String :=
  if question.qtype = "problem-solving" then
    ["method-selection", "step-explanation", "answer-verification"]
  else if question.qtype = "concept-explanation" then
    ["definition", "examples", "applications"]
  else if question.qtype = "analysis" then
    ["evidence-evaluation", "conclusion-drawing", "alternative-consideration"]
  else []

/-- Source `getElementKeywords(element)` (lines 493–507). -/
def getElementKeywords (element : String) : List String :=
  if element = "method-selection" then ["method", "approach", "way", "technique"]
  else if element = "step-explanation" then ["first", "next", "then", "step"]
  else if element = "answer-verification" then ["check", "verify", "confirm", "test"]
  else if element = "definition" then ["means", "is", "defined as", "refers to"]
  else if element = "examples" then ["example", "instance", "case", "such as"]
  else if element = "applications" then ["used", "applied", "applies to", "useful"]
  else if element = "evidence-evaluation" then ["evidence", "shows", "proves", "indicates"]
  else if element = "conclusion-drawing" then ["conclude", "therefore", "thus", "result"]
  else if element = "alternative-consideration" then ["alternatively", "could be", "might", "possible"]
  else []

/-- Source `findAddressedElements(reasoning, requiredElements)` (lines 479–491). -/
def findAddressedElements (reasoning : String) (requiredElements : List String) : List String :=
  let text := strLower reasoning
  requiredElements.filter (fun element =>
    (getElementKeywords element).any (fun keyword => strIncludes text keyword))

/-- Source `assessReasoningDepth(reasoning)` (lines 509–525). -/
def assessReasoningDepth (reasoning : String) : Frac :=
  let text := strLower reasoning
  let d1 := ((depthIndicators.filter (fun i => strIncludes text i)).length : Frac) * 0.2
  let d2 := d1 + (if strIncludes text "because" && strIncludes text "therefore" then (0.1 : Frac) else 0)
  let d3 := d2 + (if strIncludes text "compared to" || strIncludes text "different from" then (0.1 : Frac) else 0)
  min 1 d3

/-- Source `assessCompleteness(reasoning, question)` (lines 191–207). -/
def assessCompleteness (reasoning : String) (question : Question) : Frac :=
  let base : Frac := 0.4
  let requiredElements := getRequiredReasoningElements question
  let addressedElements := findAddressedElements reasoning requiredElements
  let s1 := base + (if requiredElements.length ≠ 0 then
    ((addressedElements.length : Frac) / requiredElements.length) * 0.4 else 0)
  let s2 := s1 + assessReasoningDepth reasoning * 0.2
  max 0 (min 1 s2)

/-- The stop-word list of `extractKeywords` (line 530). -/
def stopWords : List String := ["the", "is", "at", "which", "on", "a", "an", "and", "or", "but"]

/-- Source `extractKeywords(text)` (lines 527–532). -/
def extractKeywords (text : String) : List String :=
  (tokensOf (strLower text)).filter (fun word => 3 < word.length && !stopWords.contains word)

/-- Source `calculateKeywordOverlap` (lines 534–538). -/
def calculateKeywordOverlap (keywords1 keywords2 : List String) : Frac :=
  let overlap := keywords1.filter (fun k => keywords2.contains k)
  let total := max keywords1.length keywords2.length
  if 0 < total then (overlap.length : Frac) / total else 0

/-- Source `assessAnswerSupport(reasoning, answer)` (lines 540–553). -/
def assessAnswerSupport (reasoning : String) (answer : Answer) : Frac :=
  let text := strLower reasoning
  match answer with
  | .num _ =>
    let hasNumbers := text.toList.any Char.isDigit
    let calcWords : List String := ["calculate", "compute", "multiply", "divide", "add", "subtract"]
    let hasCalculation := calcWords.any (fun w => strIncludes text w)
    (if hasNumbers then (0.5 : Frac) else 0) + (if hasCalculation then (0.5 : Frac) else 0)
  | .other => 0.5

/-- Source `assessRelevance(reasoning, question, answer)` (lines 212–227). -/
def assessRelevance (reasoning : String) (question : Question) (answer : Answer) : Frac :=
  let base : Frac := 0.5
  let questionKeywords := extractKeywords question.text
  let reasoningKeywords := extractKeywords reasoning
  let s1 := base + calculateKeywordOverlap questionKeywords reasoningKeywords * 0.3
  let s2 := s1 + assessAnswerSupport reasoning answer * 0.2
  max 0 (min 1 s2)

/-- Source `detectContradictions(reasoning)` (lines 564–580): when the text contains
`but` or `however`, the source splits on them and — the occurrence guarantees
at least two pieces — pushes one contradiction marker. -/
def detectContradictions (reasoning : String) : List String :=
  let text := strLower reasoning
  if strIncludes text "but" || strIncludes text "however" then ["explicit-contradiction"]
  else []

/-- Source `assessInherentQuality(reasoning)` (lines 555–562). -/
def assessInherentQuality (reasoning : String) : Frac :=
  let clarity := assessClarity reasoning
  let structureScore : Frac := if hasValidPremiseConclusion reasoning then 0.3 else 0
  let depth := assessReasoningDepth reasoning
  clarity * 0.5 + structureScore + depth * 0.2

/-- Source `assessConsistency(reasoning, answer, isCorrect)` (lines 232–253);
`answer` is unused in the source body too. -/
def assessConsistency (reasoning : String) (answer : Answer) (isCorrect : Bool) : Frac :=
  let _ := answer
  let base : Frac := 0.6
  let s1 := base - ((detectContradictions reasoning).length : Frac) * 0.1
  let reasoningQuality := assessInherentQuality reasoning
  let s2 := s1 + (if isCorrect && decide ((0.7 : Frac) < reasoningQuality) then (0.2 : Frac)
    else if !isCorrect && decide (reasoningQuality < (0.4 : Frac)) then (0.1 : Frac)
    else if isCorrect && decide (reasoningQuality < (0.4 : Frac)) then (-0.3 : Frac)
    else if !isCorrect && decide ((0.7 : Frac) < reasoningQuality) then (0.15 : Frac)
    else 0)
  max 0 (min 1 s2)

/-- The six per-criterion scores computed by `validate` (lines 55–62). -/
structure Analysis where
  clarity : Frac
  logic : Frac
  evidence : Frac
  completeness : Frac
  relevance : Frac
  consistency : Frac
deriving DecidableEq

/-- The analysis block of `validate` (lines 55–62). -/
def analyzeReasoning (reasoning : String) (question : Question) (answer : Answer)
    (isCorrect : Bool) : Analysis :=
  { clarity := assessClarity reasoning
    logic := assessLogicalStructure reasoning question
    evidence := assessEvidence reasoning question
    completeness := assessCompleteness reasoning question
    relevance := assessRelevance reasoning question answer
    consistency := assessConsistency reasoning answer isCorrect }

/-- Source `calculateOverallScore(analysis)` (lines 258–271). -/
def calculateOverallScore (analysis : Analysis) : Frac :=
  analysis.clarity * 0.20 + analysis.logic * 0.25 + analysis.evidence * 0.20 +
    analysis.completeness * 0.15 + analysis.relevance * 0.10 + analysis.consistency * 0.10

/-- Source `meetsValidationThreshold(analysis)` (lines 276–281): every entry of
`this.validationCriteria` (lines 6–13) must meet its minimum.  The criteria
map holds exactly five entries — clarity .7, logic .8, evidence .6,
completeness .7, relevance .8; it has no `consistency` entry. -/
def meetsValidationThreshold (analysis : Analysis) : Bool :=
  decide ((0.7 : Frac) ≤ analysis.clarity) && decide ((0.8 : Frac) ≤ analysis.logic) &&
  decide ((0.6 : Frac) ≤ analysis.evidence) && decide ((0.7 : Frac) ≤ analysis.completeness) &&
  decide ((0.8 : Frac) ≤ analysis.relevance)

/-- Source `getImprovementSuggestion(criterion, score)` (lines 334–371). -/
def getImprovementSuggestion (criterion : String) (score : Frac) : String :=
  let suggestions : List String :=
    if criterion = "clarity" then
      ["Use clearer language and avoid vague terms like \"this\" or \"it\"",
       "Organize your thoughts into clear sentences",
       "Define technical terms when you use them"]
    else if criterion = "logic" then
      ["Use logical connectors like \"because\", \"therefore\", \"since\"",
       "Present your ideas in a step-by-step sequence",
       "Make sure each point follows from the previous one"]
    else if criterion = "evidence" then
      ["Support your claims with specific examples or data",
       "Reference relevant concepts or principles",
       "Explain how your evidence leads to your conclusion"]
    else if criterion = "completeness" then
      ["Address all parts of the question",
       "Explain each step of your reasoning",
       "Consider alternative explanations or approaches"]
    else if criterion = "relevance" then
      ["Focus on aspects directly related to the question",
       "Connect your reasoning to the specific problem context",
       "Avoid tangential or unrelated information"]
    else if criterion = "consistency" then
      ["Check that all parts of your explanation agree with each other",
       "Ensure your reasoning supports your final answer",
       "Avoid contradictory statements"]
    else []
  let index := min (Frac.floor ((1 - score) * suggestions.length)).toNat (suggestions.length - 1)
  (suggestions.getD index "Try to improve this aspect of your reasoning.")

/-- Source `getStrengthMessage(aspect, score)` (lines 376–387). -/
def getStrengthMessage (aspect : String) : String :=
  if aspect = "clarity" then "Your explanation is clear and easy to follow."
  else if aspect = "logic" then "Your logical structure is excellent."
  else if aspect = "evidence" then "You provide strong evidence for your reasoning."
  else if aspect = "completeness" then "You address all important aspects thoroughly."
  else if aspect = "relevance" then "Your reasoning directly addresses the question."
  else if aspect = "consistency" then "Your explanation is internally consistent."
  else "This aspect of your reasoning is strong."

/-- The feedback object of `generateDetailedFeedback`. -/
structure Feedback where
  message : String
  improvementAreas : List String
  suggestions : List String
  strengths : List String
deriving DecidableEq

/-- Source `Object.entries(analysis)` in insertion order (lines 55–62). -/
def analysisEntries (a : Analysis) : List (String × Frac) :=
  [("clarity", a.clarity), ("logic", a.logic), ("evidence", a.evidence),
   ("completeness", a.completeness), ("relevance", a.relevance), ("consistency", a.consistency)]

/-- Source `Object.entries(this.validationCriteria)` in insertion order (lines 6–13):
five criteria, no consistency entry. -/
def validationCriteriaEntries : List (String × Frac) :=
  [("clarity", 0.7), ("logic", 0.8), ("evidence", 0.6), ("completeness", 0.7), ("relevance", 0.8)]

/-- Source `analysis[criterion]` for the criterion names. -/
def analysisDim (a : Analysis) : String → Frac
  | "clarity" => a.clarity
  | "logic" => a.logic
  | "evidence" => a.evidence
  | "completeness" => a.completeness
  | "relevance" => a.relevance
  | "consistency" => a.consistency
  | _ => 0

/-- Source `generateDetailedFeedback(analysis, reasoning, isCorrect)`
(lines 286–329); the `reasoning` parameter is unused in the source body too. -/
def generateDetailedFeedback (analysis : Analysis) (reasoning : String)
    (isCorrect : Bool) : Feedback :=
  let _ := reasoning
  let strengths := ((analysisEntries analysis).filter
    (fun e => decide ((0.8 : Frac) ≤ e.2))).map (fun e => getStrengthMessage e.1)
  let failing := validationCriteriaEntries.filter (fun e => analysisDim analysis e.1 < e.2)
  let improvementAreas := failing.map Prod.fst
  let suggestions := failing.map (fun e => getImprovementSuggestion e.1 (analysisDim analysis e.1))
  let message :=
    if strengths.length ≠ 0 && improvementAreas.length = 0 then
      "Excellent reasoning! " ++ (strengths.getD 0 "")
    else if improvementAreas.length = 0 then
      "Good reasoning overall. Your explanation demonstrates solid understanding."
    else if improvementAreas.length = 1 then
      "Your reasoning shows understanding, but could be improved by focusing on " ++
        (improvementAreas.getD 0 "") ++ "."
    else
      "Your reasoning needs improvement in several areas: " ++
        String.intercalate ", " improvementAreas ++ "."
  let message2 :=
    if isCorrect && decide (analysis.logic < (0.6 : Frac)) then
      message ++ " While your answer is correct, strengthening your logical explanation will help you tackle harder problems."
    else if !isCorrect && decide ((0.8 : Frac) < analysis.logic) then
      message ++ " Your reasoning process is strong - check your calculation or reconsider your assumptions."
    else message
  { message := message2
    improvementAreas := improvementAreas
    suggestions := suggestions
    strengths := strengths }

/-- The result object of `validate`.  On the short-circuit branch the source
object carries no `strengths`/`analysis` fields; those are `[]`/`none` here. -/
structure ValidationResult where
  isValid : Bool
  score : Frac
  feedback : String
  areas : List String
  suggestions : List String
  strengths : List String
  analysis : Option Analysis
deriving DecidableEq

/-- The short-circuit result of `validate` (lines 44–52). -/
def shortReasoningResult : ValidationResult :=
  { isValid := false
    score := 0
    feedback := "Please provide a more detailed explanation of your reasoning."
    areas := ["completeness"]
    suggestions := ["Explain your thought process step by step."]
    strengths := []
    analysis := none }

/-- Source `JustificationValidator.validate(reasoning, question, answer, isCorrect)`
(lines 43–82).  A missing reasoning argument (`!reasoning`) is the `none`
case; the empty string is falsy in the source and also trims below 5, so both
reach the same branch. -/
def validate (reasoning : Option String) (question : Question) (answer : Answer)
    (isCorrect : Bool) : ValidationResult :=
  match reasoning with
  | none => shortReasoningResult
  | some r =>
    if (jsTrim r).length < 5 then shortReasoningResult
    else
      let analysis := analyzeReasoning r question answer isCorrect
      let overallScore := calculateOverallScore analysis
      let isValid := meetsValidationThreshold analysis
      let feedback := generateDetailedFeedback analysis r isCorrect
      { isValid := isValid
        score := overallScore
        feedback := feedback.message
        areas := feedback.improvementAreas
        suggestions := feedback.suggestions
        strengths := feedback.strengths
        analysis := some analysis }

/-- The progress fields that `evaluateMastery` never changes: everything
except `masteryLevel` and `nextReviewDue`. -/
def stablePart (p : ConceptProgress) : ConceptProgress :=
  { p with masteryLevel := 0, nextReviewDue := none }
/-- The length of a concept's mastery timeline. -/
def mhLen (s : MasteryTracker) (c : String) : Nat :=
  ((alookup c s.masteryHistory).getD []).length
/-- The achievement record appended by `recordMasteryAchievement` when the
concept's progress record is `p`. -/
def theAchievement (now : Nat) (c : String) (s : MasteryTracker)
    (p : ConceptProgress) : MasteryAchievement :=
  { timestamp := now
    concept := c
    scores := calculateMasteryScores s p
    overallScore := calculateOverallMastery (calculateMasteryScores s p)
    attemptsRequired := p.totalAttempts
    timeToMastery := (now : Int) - p.firstSeenDate }
/-- The intermediate state of `evaluateMastery`: the progress record with its
`masteryLevel` overwritten. -/
def withMasteryLevel (s : MasteryTracker) (c : String) (p : ConceptProgress)
    (o : Frac) : MasteryTracker :=
  { s with conceptProgress := aset c { p with masteryLevel := o } s.conceptProgress }

/-! ### Concrete scenarios used to settle the claims -/

/-- Four identical correct assessment-context attempts on concept `c`, two
days apart (reasoning score 0.9, one attempt used, 9 s): from the third
attempt on, the concept statistics satisfy every mastery criterion
(accuracy 1, consistency 1, reasoning 0.9, retention 1, application 1,
overall 0.98). -/
def masteryState1 : MasteryTracker :=
  (recordAttempt 0 "c" true 1 9000 0.9 "assessment" mtEmpty).2

def masteryState2 : MasteryTracker :=
  (recordAttempt 172800000 "c" true 1 9000 0.9 "assessment" masteryState1).2

def masteryState3 : MasteryTracker :=
  (recordAttempt 345600000 "c" true 1 9000 0.9 "assessment" masteryState2).2

def masteryState4 : MasteryTracker :=
  (recordAttempt 518400000 "c" true 1 9000 0.9 "assessment" masteryState3).2

/-- The progress record of concept `c` after the third attempt. -/
def masteryProgress3 : ConceptProgress :=
  (alookup "c" masteryState3.conceptProgress).getD (freshProgress 0 "c")

/-- A learner at level 2 requesting level 3: the valid next level, so the
cooldown scenario never fails the level-sequence checks. -/
def cooldownProfile : LearnerProfile := ⟨"lrn", 2, 0, none⟩

/-- A fixed stand-in for the challenge-stage random draws. -/
def zeroDraw : ChallengeDraw := ⟨0, 0, 0, 0⟩

/-- One `evaluateProgression` call threading the gate and tracker state. -/
def cooldownStep (st : ProgressionGate × MasteryTracker) (now : Nat) :
    ProgressionGate × MasteryTracker :=
  let r := evaluateProgression cooldownProfile 3 st.2 st.1 zeroDraw 1 now
  (r.2.1, r.2.2)

/-- The gate and tracker after five consecutive BLOCK decisions for
(learner `lrn`, level 3), one minute apart — all within one hour. -/
def cooldownAfter5 : ProgressionGate × MasteryTracker :=
  [0, 60000, 120000, 180000, 240000].foldl cooldownStep (pgEmpty, mtEmpty)

/-- The sixth call, five minutes after the first. -/
def cooldownSixth : Evaluation × ProgressionGate × MasteryTracker :=
  evaluateProgression cooldownProfile 3 cooldownAfter5.2 cooldownAfter5.1 zeroDraw 1 300000

/-- A gate holding blocked-attempt entries for four distinct target levels of
the same learner, all first blocked at time 1000. -/
def fourBlockGate : ProgressionGate :=
  ⟨[], [("lrn-2", ⟨1000, "lrn", 2, "r", 1, none⟩),
        ("lrn-3", ⟨1000, "lrn", 3, "r", 1, none⟩),
        ("lrn-4", ⟨1000, "lrn", 4, "r", 1, none⟩),
        ("lrn-5", ⟨1000, "lrn", 5, "r", 1, none⟩)]⟩

/-- Reasoning text that passes the five checked validation criteria while its
consistency score is 0.3: correct answer with inherent quality below 0.4. -/
def consistencyText : String :=
  "first we verify the method and it shows 2 steps that go well when done. next the output demonstrates the total and indicates progress due to care whereas practice leads to precision therefore thus hence we calculate the result."

/-- The question paired with `consistencyText`; its text is the same string,
so every reasoning keyword overlaps. -/
def consistencyQuestion : Question :=
  { text := consistencyText, qtype := "problem-solving", requiredConcepts := [] }

/-- The validator output on the consistency counterexample. -/
def consistencyResult : ValidationResult :=
  validate (some consistencyText) consistencyQuestion (Answer.num 2) true

/-- The tracker after recording an attempt with a negative time spent on a
concept unknown to any catalog. -/
def malformedState : MasteryTracker :=
  (recordAttempt 0 "mystery-concept" true 1 (-1000) 0.5 "practice" mtEmpty).2

/-! ### Basic lemmas about the `Map` model -/

theorem alookup_aset_self {α : Type} (k : String) (v : α) (l : List (String × α)) :
    alookup k (aset k v l) = some v := by
  induction l with
  | nil => simp [aset, alookup]
  | cons kv rest ih =>
    by_cases h : kv.1 = k
    · simp [aset, alookup, h]
    · simp [aset, alookup, h, ih]

theorem alookup_aset_ne {α : Type} {k k' : String} (h : k' ≠ k) (v : α)
    (l : List (String × α)) : alookup k (aset k' v l) = alookup k l := by
  induction l with
  | nil => simp [aset, alookup, h]
  | cons kv rest ih =>
    by_cases hk : kv.1 = k'
    · simp [aset, alookup, hk, h]
    · have hkk : ¬k = k' := fun he => h he.symm
      by_cases hk2 : kv.1 = k
      · simp [aset, alookup, hk, hk2, hkk]
      · simp [aset, alookup, hk, hk2, hkk, ih]

theorem aset_aset {α : Type} (k : String) (v w : α) (l : List (String × α)) :
    aset k v (aset k w l) = aset k v l := by
  induction l with
  | nil => simp [aset]
  | cons kv rest ih =>
    by_cases h : kv.1 = k
    · simp [aset, h]
    · simp [aset, h, ih]

theorem alookup_mem {α : Type} {k : String} {v : α} {l : List (String × α)}
    (h : alookup k l = some v) : (k, v) ∈ l := by
  induction l with
  | nil => simp [alookup] at h
  | cons kv rest ih =>
    by_cases hk : kv.1 = k
    · simp [alookup, hk] at h
      have hkv : kv = (k, v) := by
        obtain ⟨a, b⟩ := kv
        simp_all
      rw [hkv]
      exact List.mem_cons_self _ _
    · simp [alookup, hk] at h
      exact List.mem_cons_of_mem _ (ih h)

/-! ### Frame lemmas for `evaluateMastery` and its callees -/

theorem map_stable_aset (cp : List (String × ConceptProgress)) (d c : String)
    (p q : ConceptProgress) (hq : stablePart q = stablePart p)
    (hp : alookup d cp = some p) :
    (alookup c (aset d q cp)).map stablePart = (alookup c cp).map stablePart := by
  by_cases hc : d = c
  · subst hc
    rw [alookup_aset_self, hp]
    simp [hq]
  · rw [alookup_aset_ne hc]

theorem scheduleSpacedRepetition_attemptHistory (now : Nat) (c : String)
    (wc wm : Bool) (s : MasteryTracker) :
    (scheduleSpacedRepetition now c wc wm s).attemptHistory = s.attemptHistory := by
  unfold scheduleSpacedRepetition
  cases h : alookup c s.conceptProgress <;> simp [h]

theorem scheduleSpacedRepetition_masteryHistory (now : Nat) (c : String)
    (wc wm : Bool) (s : MasteryTracker) :
    (scheduleSpacedRepetition now c wc wm s).masteryHistory = s.masteryHistory := by
  unfold scheduleSpacedRepetition
  cases h : alookup c s.conceptProgress <;> simp [h]

theorem scheduleSpacedRepetition_stable (now : Nat) (d c : String) (wc wm : Bool)
    (s : MasteryTracker) :
    (alookup c (scheduleSpacedRepetition now d wc wm s).conceptProgress).map stablePart
      = (alookup c s.conceptProgress).map stablePart := by
  unfold scheduleSpacedRepetition
  cases h : alookup d s.conceptProgress with
  | none => simp [h]
  | some p =>
    simp only [h]
    exact map_stable_aset _ d c p _ rfl h

theorem recordMasteryAchievement_attemptHistory (now : Nat) (c : String)
    (scores : MasteryScores) (o : Frac) (s : MasteryTracker) :
    (recordMasteryAchievement now c scores o s).attemptHistory = s.attemptHistory := by
  unfold recordMasteryAchievement
  rw [scheduleSpacedRepetition_attemptHistory]

theorem recordMasteryAchievement_stable (now : Nat) (d c : String)
    (scores : MasteryScores) (o : Frac) (s : MasteryTracker) :
    (alookup c (recordMasteryAchievement now d scores o s).conceptProgress).map stablePart
      = (alookup c s.conceptProgress).map stablePart := by
  unfold recordMasteryAchievement
  rw [scheduleSpacedRepetition_stable]

theorem evaluateMastery_attemptHistory (now : Nat) (d : String) (s : MasteryTracker) :
    ((evaluateMastery now d s).2).attemptHistory = s.attemptHistory := by
  unfold evaluateMastery
  cases h : alookup d s.conceptProgress with
  | none => simp [h]
  | some p =>
    by_cases hta : p.totalAttempts < 3
    · simp [h, hta]
    · by_cases hc : (decide ((0.85 : Frac) ≤ calculateOverallMastery (calculateMasteryScores s p))
        && allComponentsMeetThreshold (calculateMasteryScores s p)) = true
      · simp [h, hta, hc, recordMasteryAchievement_attemptHistory]
      · simp [h, hta, hc]

theorem evaluateMastery_stable (now : Nat) (d c : String) (s : MasteryTracker) :
    (alookup c ((evaluateMastery now d s).2).conceptProgress).map stablePart
      = (alookup c s.conceptProgress).map stablePart := by
  unfold evaluateMastery
  cases h : alookup d s.conceptProgress with
  | none => simp [h]
  | some p =>
    by_cases hta : p.totalAttempts < 3
    · simp [h, hta]
    · by_cases hc : (decide ((0.85 : Frac) ≤ calculateOverallMastery (calculateMasteryScores s p))
        && allComponentsMeetThreshold (calculateMasteryScores s p)) = true
      · simp only [h, hta, if_false, hc, if_true]
        rw [recordMasteryAchievement_stable]
        exact map_stable_aset _ d c p _ rfl h
      · simp only [h, hta, if_false, hc]
        simp only [Bool.false_eq_true, if_false]
        exact map_stable_aset _ d c p _ rfl h

/-- The boolean component of `evaluateMastery` is the pure decision. -/
theorem evaluateMastery_fst (now : Nat) (c : String) (s : MasteryTracker) :
    (evaluateMastery now c s).1 = masteryDecision s c := by
  unfold evaluateMastery masteryDecision
  cases h : alookup c s.conceptProgress with
  | none => simp
  | some p =>
    by_cases hta : p.totalAttempts < 3
    · simp [hta]
    · by_cases hc : (decide ((0.85 : Frac) ≤ calculateOverallMastery (calculateMasteryScores s p))
        && allComponentsMeetThreshold (calculateMasteryScores s p)) = true
      · simp [hta, hc]
      · simp [hta, hc]

/-- Source `masteryDecision` only reads the attempt history and the stable part of
the concept's progress record. -/
theorem masteryDecision_congr {s s' : MasteryTracker} (c : String)
    (hh : s'.attemptHistory = s.attemptHistory)
    (hp : (alookup c s'.conceptProgress).map stablePart
      = (alookup c s.conceptProgress).map stablePart) :
    masteryDecision s' c = masteryDecision s c := by
  unfold masteryDecision
  cases h1 : alookup c s.conceptProgress with
  | none =>
    rw [h1] at hp
    simp only [Option.map_none'] at hp
    rw [Option.map_eq_none'] at hp
    rw [hp]
  | some p =>
    cases h2 : alookup c s'.conceptProgress with
    | none =>
      rw [h1, h2] at hp
      simp at hp
    | some p' =>
      rw [h1, h2] at hp
      simp only [Option.map_some', Option.some.injEq, stablePart,
        ConceptProgress.mk.injEq] at hp
      obtain ⟨hcn, hta, hca, havgA, havgT, hrs, hla, hdl, htriv, hcs, hrt, happ, hrest⟩ := hp
      simp only [calculateMasteryScores, calculateAccuracyScore, calculateReasoningScoreVal,
        calculateApplicationScore, getRecentAttempts, hh, hta, hcn, hcs, hrt, hrs]

/-- A satisfied mastery decision makes `evaluateMastery` return true and
append exactly the expected achievement record. -/
theorem evaluateMastery_success {s : MasteryTracker} {c : String} {p : ConceptProgress}
    (now : Nat) (h1 : alookup c s.conceptProgress = some p)
    (h2 : masteryDecision s c = true) :
    evaluateMastery now c s
      = (true, recordMasteryAchievement now c (calculateMasteryScores s p)
          (calculateOverallMastery (calculateMasteryScores s p))
          (withMasteryLevel s c p (calculateOverallMastery (calculateMasteryScores s p)))) := by
  unfold masteryDecision at h2
  rw [h1] at h2
  by_cases hta : p.totalAttempts < 3
  · simp [hta] at h2
  · simp only [hta, if_false] at h2
    unfold evaluateMastery
    rw [h1]
    simp [hta, h2, withMasteryLevel]

theorem recordMasteryAchievement_mh {s : MasteryTracker} {c : String}
    (now : Nat) (scores : MasteryScores) (o : Frac) :
    alookup c (recordMasteryAchievement now c scores o s).masteryHistory
      = some ((alookup c s.masteryHistory).getD []
          ++ [{ timestamp := now, concept := c, scores := scores, overallScore := o,
                attemptsRequired := (((alookup c s.conceptProgress).map
                  (fun p => p.totalAttempts)).getD 0),
                timeToMastery := (now : Int) - (((alookup c s.conceptProgress).map
                  (fun p => p.firstSeenDate)).getD 0) }]) := by
  unfold recordMasteryAchievement
  rw [scheduleSpacedRepetition_masteryHistory]
  simp [alookup_aset_self]

theorem evaluateMastery_mhLen_le (now : Nat) (d c : String) (s : MasteryTracker) :
    mhLen s c ≤ mhLen ((evaluateMastery now d s).2) c := by
  unfold evaluateMastery
  cases h : alookup d s.conceptProgress with
  | none => simp [h]
  | some p =>
    by_cases hta : p.totalAttempts < 3
    · simp [h, hta]
    · by_cases hc : (decide ((0.85 : Frac) ≤ calculateOverallMastery (calculateMasteryScores s p))
        && allComponentsMeetThreshold (calculateMasteryScores s p)) = true
      · simp only [h, hta, if_false, hc, if_true]
        unfold mhLen
        unfold recordMasteryAchievement
        rw [scheduleSpacedRepetition_masteryHistory]
        by_cases hcd : d = c
        · subst hcd
          simp [alookup_aset_self]
        · simp [alookup_aset_ne hcd]
      · simp [h, hta, hc, mhLen]

/-- A satisfied mastery decision makes `evaluateMastery` grow the concept's
mastery timeline by exactly one. -/
theorem evaluateMastery_hit {s : MasteryTracker} {c : String}
    (now : Nat) (h2 : masteryDecision s c = true) :
    (evaluateMastery now c s).1 = true ∧
      mhLen ((evaluateMastery now c s).2) c = mhLen s c + 1 := by
  have h1 : ∃ p, alookup c s.conceptProgress = some p := by
    unfold masteryDecision at h2
    cases h : alookup c s.conceptProgress with
    | none => rw [h] at h2; simp at h2
    | some p => exact ⟨p, rfl⟩
  obtain ⟨p, h1⟩ := h1
  rw [evaluateMastery_success now h1 h2]
  refine ⟨rfl, ?_⟩
  unfold mhLen
  rw [recordMasteryAchievement_mh]
  simp [withMasteryLevel]

theorem countMastered_attemptHistory (now : Nat) (ps : List ConceptProgress)
    (s : MasteryTracker) :
    ((countMastered now ps s).2).attemptHistory = s.attemptHistory := by
  induction ps generalizing s with
  | nil => rfl
  | cons p rest ih =>
    simp only [countMastered]
    rw [ih, evaluateMastery_attemptHistory]

theorem countMastered_stable (now : Nat) (ps : List ConceptProgress)
    (s : MasteryTracker) (c : String) :
    (alookup c ((countMastered now ps s).2).conceptProgress).map stablePart
      = (alookup c s.conceptProgress).map stablePart := by
  induction ps generalizing s with
  | nil => rfl
  | cons p rest ih =>
    simp only [countMastered]
    rw [ih, evaluateMastery_stable]

theorem countMastered_decision (now : Nat) (ps : List ConceptProgress)
    (s : MasteryTracker) (c : String) :
    masteryDecision ((countMastered now ps s).2) c = masteryDecision s c :=
  masteryDecision_congr c (countMastered_attemptHistory now ps s)
    (countMastered_stable now ps s c)

theorem countMastered_mhLen_le (now : Nat) (ps : List ConceptProgress)
    (s : MasteryTracker) (c : String) :
    mhLen s c ≤ mhLen ((countMastered now ps s).2) c := by
  induction ps generalizing s with
  | nil => exact Nat.le_refl _
  | cons p rest ih =>
    simp only [countMastered]
    exact Nat.le_trans (evaluateMastery_mhLen_le now p.concept c s)
      (ih ((evaluateMastery now p.concept s).2))

theorem countMastered_hit (now : Nat) (ps : List ConceptProgress)
    (s : MasteryTracker) (c : String) (hmem : c ∈ ps.map (fun p => p.concept))
    (hdec : masteryDecision s c = true) :
    mhLen s c + 1 ≤ mhLen ((countMastered now ps s).2) c := by
  induction ps generalizing s with
  | nil => simp at hmem
  | cons p rest ih =>
    simp only [List.map_cons, List.mem_cons] at hmem
    simp only [countMastered]
    by_cases hpc : p.concept = c
    · subst hpc
      obtain ⟨-, hgrow⟩ := evaluateMastery_hit now hdec
      calc mhLen s p.concept + 1 = mhLen ((evaluateMastery now p.concept s).2) p.concept := hgrow.symm
        _ ≤ _ := countMastered_mhLen_le now rest _ p.concept
    · have hmem' : c ∈ rest.map (fun p => p.concept) := by
        rcases hmem with h | h
        · exact absurd h.symm hpc
        · exact h
      have hdec' : masteryDecision ((evaluateMastery now p.concept s).2) c = true := by
        rw [masteryDecision_congr c (evaluateMastery_attemptHistory now p.concept s)
          (evaluateMastery_stable now p.concept c s)]
        exact hdec
      exact Nat.le_trans (Nat.add_le_add_right (evaluateMastery_mhLen_le now p.concept c s) 1)
        (ih _ hmem' hdec')

/-! ### The analytics recursion always throws -/

/-- Every call to `getPerformanceAnalytics`, at every stack budget, ends in
the thrown error: the mutual recursion with
`generatePerformanceRecommendations` has no base case. -/
theorem getPerformanceAnalytics_error (fuel now : Nat) (s : MasteryTracker) :
    ∃ s', getPerformanceAnalytics fuel now s = .error s' := by
  induction fuel generalizing s with
  | zero => exact ⟨s, rfl⟩
  | succ n ih =>
    obtain ⟨s', h⟩ := ih ((countMastered now (s.conceptProgress.map Prod.snd) s).2)
    exact ⟨s', by simp [getPerformanceAnalytics, h]⟩

theorem getPerformanceAnalytics_mhLen_le {fuel now : Nat} {s s' : MasteryTracker}
    (c : String) (h : getPerformanceAnalytics fuel now s = .error s') :
    mhLen s c ≤ mhLen s' c := by
  induction fuel generalizing s with
  | zero =>
    simp only [getPerformanceAnalytics] at h
    cases h
    exact Nat.le_refl _
  | succ n ih =>
    cases hrec : getPerformanceAnalytics n now
        ((countMastered now (s.conceptProgress.map Prod.snd) s).2) with
    | error s2 =>
      simp only [getPerformanceAnalytics, hrec] at h
      cases h
      exact Nat.le_trans (countMastered_mhLen_le now _ s c) (ih hrec)
    | ok v =>
      simp [getPerformanceAnalytics, hrec] at h

theorem verifyMasteryEvidence_error (profile : LearnerProfile) (targetLevel : Nat)
    (fuel now : Nat) (t : MasteryTracker) :
    ∃ t', verifyMasteryEvidence profile targetLevel fuel now t = .error t' := by
  unfold verifyMasteryEvidence
  cases h : masteryEvidenceLoop now (getLevelRequirements targetLevel).requiredConcepts t with
  | error t' => exact ⟨t', by simp [h]⟩
  | ok t1 =>
    obtain ⟨t2, h2⟩ := getPerformanceAnalytics_error fuel now t1
    exact ⟨t2, by simp [h, calculateOverallConsistency, h2]⟩

theorem recordBlockedAttempt_history (profile : LearnerProfile) (targetLevel : Nat)
    (reason : String) (now : Nat) (g : ProgressionGate) :
    (recordBlockedAttempt profile targetLevel reason now g).progressionHistory
      = g.progressionHistory := by
  unfold recordBlockedAttempt
  cases h : alookup (profile.id ++ "-" ++ toString targetLevel) g.blockedAttempts <;> simp [h]

/-- The gate can never return an ALLOW evaluation: the only paths to the
ALLOW branch run through `verifyMasteryEvidence`, which always throws (either
the missing `getMasteryStatus` method or the analytics stack overflow), so
every call lands in an eligibility BLOCK or the fail-closed catch BLOCK. -/
theorem evaluateProgression_never_allows (profile : LearnerProfile) (targetLevel : Nat)
    (t : MasteryTracker) (g : ProgressionGate) (draw : ChallengeDraw) (fuel now : Nat) :
    (evaluateProgression profile targetLevel t g draw fuel now).1.canProgress = false := by
  unfold evaluateProgression
  by_cases he : (checkBasicEligibility g profile targetLevel now).eligible
  · obtain ⟨t', hv⟩ := verifyMasteryEvidence_error profile targetLevel fuel now t
    simp [he, hv, recordProgressionDecision, emptyEvaluation]
  · simp [he, recordProgressionDecision, emptyEvaluation]

theorem recordProgressionDecision_fst (profile : LearnerProfile) (targetLevel : Nat)
    (ev : Evaluation) (now : Nat) (g : ProgressionGate) :
    (recordProgressionDecision profile targetLevel ev now g).1 = ev := rfl

theorem recordProgressionDecision_self (profile : LearnerProfile) (targetLevel : Nat)
    (ev : Evaluation) (now : Nat) (g : ProgressionGate) :
    alookup profile.id ((recordProgressionDecision profile targetLevel ev now g).2).progressionHistory
      = some ((alookup profile.id g.progressionHistory).getD []
          ++ [mkDecision profile targetLevel ev now]) := by
  unfold recordProgressionDecision
  by_cases hc : ev.canProgress
  · simp [hc, alookup_aset_self]
  · simp [hc, recordBlockedAttempt_history, alookup_aset_self]

theorem recordProgressionDecision_other (profile : LearnerProfile) (targetLevel : Nat)
    (ev : Evaluation) (now : Nat) (g : ProgressionGate) (k : String) (hk : k ≠ profile.id) :
    alookup k ((recordProgressionDecision profile targetLevel ev now g).2).progressionHistory
      = alookup k g.progressionHistory := by
  unfold recordProgressionDecision
  by_cases hc : ev.canProgress
  · simp [hc, alookup_aset_ne (Ne.symm hk)]
  · simp [hc, recordBlockedAttempt_history, alookup_aset_ne (Ne.symm hk)]

/-- C1: `evaluateProgression` never returns `canProgress = true` while some
concept required for the target level fails the mastery evaluation: every
outcome either is a BLOCK or leaves every required concept passing
`evaluateMastery` (its pure decision `masteryDecision`) in the returned
tracker state.  The property is stated as the claim's disjunction; it holds
because the gate can never return ALLOW at all — `verifyMasteryEvidence`
always throws (the missing `getMasteryStatus` method on an unmastered
concept, or the analytics stack overflow otherwise) and the catch fails
closed. -/
theorem claim_progression_allow_requires_mastery (profile : LearnerProfile)
    (targetLevel : Nat) (t : MasteryTracker) (g : ProgressionGate)
    (draw : ChallengeDraw) (fuel now : Nat) :
    (evaluateProgression profile targetLevel t g draw fuel now).1.canProgress = false
    ∨ ((getLevelRequirements targetLevel).requiredConcepts.all
        (fun c => masteryDecision
          (evaluateProgression profile targetLevel t g draw fuel now).2.2 c)) = true :=
  Or.inl (evaluateProgression_never_allows profile targetLevel t g draw fuel now)

/-- C9: the gating computation is deterministic — two `evaluateProgression`
calls on identical learner profile, target level, and tracker/gate state
return the same `canProgress` and the same `reason`, whatever the
challenge-stage random draws (and whatever the stack budget of the analytics
recursion): the randomized challenge assessment is unreachable, because
`verifyMasteryEvidence` always throws first and the catch path is fixed. -/
theorem claim_gating_deterministic (profile : LearnerProfile) (targetLevel : Nat)
    (t : MasteryTracker) (g : ProgressionGate) (d1 d2 : ChallengeDraw)
    (f1 f2 now : Nat) :
    (evaluateProgression profile targetLevel t g d1 f1 now).1.canProgress
      = (evaluateProgression profile targetLevel t g d2 f2 now).1.canProgress
    ∧ (evaluateProgression profile targetLevel t g d1 f1 now).1.reason
      = (evaluateProgression profile targetLevel t g d2 f2 now).1.reason := by
  unfold evaluateProgression
  by_cases he : (checkBasicEligibility g profile targetLevel now).eligible
  · obtain ⟨t1, h1⟩ := verifyMasteryEvidence_error profile targetLevel f1 now t
    obtain ⟨t2, h2⟩ := verifyMasteryEvidence_error profile targetLevel f2 now t
    simp [he, h1, h2, recordProgressionDecision]
  · simp [he]

/-- C3: every `evaluateProgression` call — eligibility BLOCK or internal
error alike — appends exactly one decision record (outcome ALLOW or BLOCK,
here always BLOCK) to the caller's decision history before returning, leaves
every other learner's history unchanged, and never fails open: whenever the
eligibility step passes, the internal evaluation error is thrown and the
returned result is a BLOCK with the fail-closed reason
`Evaluation system error - progression blocked for safety`. -/
theorem claim_every_evaluation_logged_once (profile : LearnerProfile)
    (targetLevel : Nat) (t : MasteryTracker) (g : ProgressionGate)
    (draw : ChallengeDraw) (fuel now : Nat) :
    alookup profile.id
        ((evaluateProgression profile targetLevel t g draw fuel now).2.1).progressionHistory
      = some ((alookup profile.id g.progressionHistory).getD []
          ++ [mkDecision profile targetLevel
                (evaluateProgression profile targetLevel t g draw fuel now).1 now])
    ∧ (∀ k, k ≠ profile.id →
        alookup k ((evaluateProgression profile targetLevel t g draw fuel now).2.1).progressionHistory
          = alookup k g.progressionHistory)
    ∧ (evaluateProgression profile targetLevel t g draw fuel now).1.canProgress = false
    ∧ ((checkBasicEligibility g profile targetLevel now).eligible = true →
        (evaluateProgression profile targetLevel t g draw fuel now).1.reason = evalErrorReason) := by
  by_cases he : (checkBasicEligibility g profile targetLevel now).eligible
  · obtain ⟨t', hv⟩ := verifyMasteryEvidence_error profile targetLevel fuel now t
    have hsh : evaluateProgression profile targetLevel t g draw fuel now
        = ((recordProgressionDecision profile targetLevel
              { emptyEvaluation with reason := evalErrorReason } now g).1,
           (recordProgressionDecision profile targetLevel
              { emptyEvaluation with reason := evalErrorReason } now g).2, t') := by
      unfold evaluateProgression
      simp [he, hv]
    rw [hsh]
    refine ⟨?_, ?_, ?_, ?_⟩
    · rw [recordProgressionDecision_fst]
      exact recordProgressionDecision_self profile targetLevel _ now g
    · exact fun k hk => recordProgressionDecision_other profile targetLevel _ now g k hk
    · rw [recordProgressionDecision_fst]
      rfl
    · intro _
      rw [recordProgressionDecision_fst]
  · have hsh : evaluateProgression profile targetLevel t g draw fuel now
        = ((recordProgressionDecision profile targetLevel
              { emptyEvaluation with
                reason := (checkBasicEligibility g profile targetLevel now).reason
                blockers := (checkBasicEligibility g profile targetLevel now).blockers } now g).1,
           (recordProgressionDecision profile targetLevel
              { emptyEvaluation with
                reason := (checkBasicEligibility g profile targetLevel now).reason
                blockers := (checkBasicEligibility g profile targetLevel now).blockers } now g).2,
           t) := by
      unfold evaluateProgression
      simp [he]
    rw [hsh]
    refine ⟨?_, ?_, ?_, ?_⟩
    · rw [recordProgressionDecision_fst]
      exact recordProgressionDecision_self profile targetLevel _ now g
    · exact fun k hk => recordProgressionDecision_other profile targetLevel _ now g k hk
    · rw [recordProgressionDecision_fst]
      rfl
    · exact fun hcontra => absurd hcontra he

/-- C3 witness: a concrete eligible call (fresh learner at level 1 asking for
level 2) discharges the eligibility hypothesis; the result carries the
fail-closed error reason. -/
theorem claim_every_evaluation_logged_once_witness :
    (checkBasicEligibility pgEmpty ⟨"w", 1, 0, none⟩ 2 0).eligible = true
    ∧ (evaluateProgression ⟨"w", 1, 0, none⟩ 2 mtEmpty pgEmpty zeroDraw 1 0).1.reason
        = evalErrorReason
    ∧ alookup "x"
        ((evaluateProgression ⟨"w", 1, 0, none⟩ 2 mtEmpty pgEmpty zeroDraw 1 0).2.1).progressionHistory
      = alookup "x" pgEmpty.progressionHistory :=
  ⟨by decide,
    (claim_every_evaluation_logged_once ⟨"w", 1, 0, none⟩ 2 mtEmpty pgEmpty zeroDraw 1 0).2.2.2
      (by decide),
    (claim_every_evaluation_logged_once ⟨"w", 1, 0, none⟩ 2 mtEmpty pgEmpty zeroDraw 1 0).2.1
      "x" (by decide)⟩

/-- C4 counterexample: five consecutive BLOCK decisions for
(learner `lrn`, target level 3) within one hour (the blocked-attempt entry
for key `lrn-3` counts 5) do not make the sixth call short-circuit at the
cooldown check: the sixth call is still eligible (the cooldown looks at the
number of distinct blocked (learner, level) entries, which is 1, not at the
per-pair count), re-enters the mastery-evidence stage and returns the
evaluation-error BLOCK, not the restriction BLOCK. -/
theorem claim_cooldown_counterexample :
    ((alookup "lrn" cooldownAfter5.1.progressionHistory).getD []).map (fun d => d.decision)
        = ["BLOCK", "BLOCK", "BLOCK", "BLOCK", "BLOCK"]
    ∧ (alookup "lrn-3" cooldownAfter5.1.blockedAttempts).map (fun b => b.attempts) = some 5
    ∧ (checkBasicEligibility cooldownAfter5.1 cooldownProfile 3 300000).eligible = true
    ∧ cooldownSixth.1.reason = evalErrorReason
    ∧ ¬(cooldownSixth.1.reason = "Active learning restrictions in place") := by
  refine ⟨by decide, by decide, by decide, by decide, by decide⟩

/-- C4 amended: the eligibility cooldown fires only when the learner holds
more than 3 blocked-attempt entries — one per (learner, targetLevel) pair,
timestamped at that pair's first block and never refreshed — inside the 24 h
window; it then blocks with reason `Active learning restrictions in place`
without touching the mastery tracker (no mastery evidence is re-evaluated).
Repeated BLOCKs for one and the same (learner, targetLevel) pair only
increment that single entry's counter and never trigger the cooldown. -/
theorem claim_cooldown_amended (profile : LearnerProfile) (targetLevel : Nat)
    (t : MasteryTracker) (g : ProgressionGate) (draw : ChallengeDraw) (fuel now : Nat)
    (h : 3 < (getRecentBlockedAttempts g profile.id now 24).length) :
    (evaluateProgression profile targetLevel t g draw fuel now).1.canProgress = false
    ∧ (evaluateProgression profile targetLevel t g draw fuel now).1.reason
        = "Active learning restrictions in place"
    ∧ (evaluateProgression profile targetLevel t g draw fuel now).2.2 = t := by
  have hr : checkActiveRestrictions g profile now
      = [Blocker.coolingPeriod "Too many recent failed progression attempts" 3600000] := by
    unfold checkActiveRestrictions
    simp [h]
  have he : checkBasicEligibility g profile targetLevel now
      = ⟨false, "Active learning restrictions in place",
          (if targetLevel ≤ profile.level then
            (if profile.level + 1 < targetLevel then
              ([Blocker.levelSequence profile.level targetLevel (profile.level + 1)] :
                List Blocker)
             else []) ++ [Blocker.alreadyAchieved profile.level targetLevel]
           else
            (if profile.level + 1 < targetLevel then
              [Blocker.levelSequence profile.level targetLevel (profile.level + 1)]
             else []))
          ++ [Blocker.coolingPeriod "Too many recent failed progression attempts" 3600000]⟩ := by
    unfold checkBasicEligibility
    rw [hr]
    by_cases h1 : profile.level + 1 < targetLevel <;>
      by_cases h2 : targetLevel ≤ profile.level <;> simp [h1, h2]
  unfold evaluateProgression
  rw [he]
  simp [recordProgressionDecision, emptyEvaluation]

/-- C4 amended witness: four distinct blocked target levels within 24 h
trigger the cooldown block. -/
theorem claim_cooldown_amended_witness :
    3 < (getRecentBlockedAttempts fourBlockGate "lrn" 7200000 24).length
    ∧ (evaluateProgression cooldownProfile 3 mtEmpty fourBlockGate zeroDraw 0 7200000).1.reason
        = "Active learning restrictions in place" :=
  ⟨by decide,
    (claim_cooldown_amended cooldownProfile 3 mtEmpty fourBlockGate zeroDraw 0 7200000
      (by decide)).2.1⟩

/-- C2 (code bug): a MasteryAchievement is not created at most once per
concept.  In the four-attempt mastery scenario the third attempt is the first
qualifying one and appends the first achievement, and the fourth (equally
qualifying) attempt appends a second achievement record for the same concept:
`evaluateMastery` has no already-mastered guard, so every qualifying
re-evaluation appends a duplicate. -/
theorem claim_mastery_achievement_duplicated :
    ((alookup "c" masteryState2.masteryHistory).getD []).length = 0
    ∧ ((alookup "c" masteryState3.masteryHistory).getD []).length = 1
    ∧ ((alookup "c" masteryState4.masteryHistory).getD []).length = 2 := by
  refine ⟨by decide, by decide, by decide⟩

/-- C5 (code bug): the attempt that marks the concept mastered does not leave
the review scheduled at now + 30 days.  The third attempt of the mastery
scenario achieves mastery (the timeline grows) with consistencyScore 1, and
`recordAttempt` then overwrites the mastered 30-day schedule with the
correctness-based one: the stored next review is now + 60 days
(retentionIntervals[min(floor(1.0 * 6), 5)] = retentionIntervals[5]), not
now + 30 days as the claim states. -/
theorem claim_mastered_interval_overwritten :
    ((alookup "c" masteryState3.masteryHistory).getD []).length
        = ((alookup "c" masteryState2.masteryHistory).getD []).length + 1
    ∧ (alookup "c" masteryState3.conceptProgress).map (fun p => p.consistencyScore) = some 1
    ∧ alookup "c" masteryState3.spacedRepetition = some (345600000 + 60 * 86400000)
    ∧ ¬(alookup "c" masteryState3.spacedRepetition = some (345600000 + 30 * 86400000)) := by
  refine ⟨by decide, by decide, by decide, by decide⟩

/-- C8 counterexample: an attempt with a negative time spent on an unknown
concept is not rejected — `recordAttempt` validates nothing.  It is appended
to the attempt history and creates/updates the concept's progress counters
like any other attempt. -/
theorem claim_malformed_attempt_recorded :
    malformedState.attemptHistory.length = 1
    ∧ malformedState.attemptHistory.map (fun a => a.timeSpent) = [(-1000 : Int)]
    ∧ (alookup "mystery-concept" malformedState.conceptProgress).map (fun p => p.totalAttempts)
        = some 1 := by
  refine ⟨by decide, by decide, by decide⟩

theorem map_totalAttempts_of_stable {o o' : Option ConceptProgress}
    (h : o'.map stablePart = o.map stablePart) :
    o'.map (fun p => p.totalAttempts) = o.map (fun p => p.totalAttempts) := by
  cases o with
  | none =>
    cases o' with
    | none => rfl
    | some p' => simp at h
  | some p =>
    cases o' with
    | none => simp at h
    | some p' =>
      simp only [Option.map_some', Option.some.injEq, stablePart,
        ConceptProgress.mk.injEq] at h
      simp [h.2.1]

theorem recordAttempt_history_aux (now : Nat) (concept : String) (isCorrect : Bool)
    (a : Attempt) (s1 : MasteryTracker) :
    (scheduleSpacedRepetition now concept isCorrect false
      ((evaluateMastery now concept (updateConceptProgress now concept a s1)).2)).attemptHistory
    = s1.attemptHistory := by
  rw [scheduleSpacedRepetition_attemptHistory, evaluateMastery_attemptHistory]
  rfl

theorem recordAttempt_totalAttempts_aux (now : Nat) (concept : String) (isCorrect : Bool)
    (a : Attempt) (s1 : MasteryTracker) :
    (alookup concept (scheduleSpacedRepetition now concept isCorrect false
        ((evaluateMastery now concept (updateConceptProgress now concept a s1)).2)).conceptProgress).map
      (fun p => p.totalAttempts)
    = some (((alookup concept s1.conceptProgress).map (fun p => p.totalAttempts)).getD 0 + 1) := by
  have h1 := scheduleSpacedRepetition_stable now concept concept isCorrect false
    ((evaluateMastery now concept (updateConceptProgress now concept a s1)).2)
  have h2 := evaluateMastery_stable now concept concept (updateConceptProgress now concept a s1)
  rw [map_totalAttempts_of_stable (h1.trans h2)]
  unfold updateConceptProgress
  rw [alookup_aset_self]
  cases h : alookup concept s1.conceptProgress with
  | none => simp [h, freshProgress]
  | some p => simp [h]

/-- C8 amended: `recordAttempt` accepts any input without validation; every
call — malformed or not — appends exactly one attempt to the attempt history
and increments the concept's `totalAttempts` by one (creating the progress
record lazily on first contact). -/
theorem claim_record_attempt_no_validation (now : Nat) (concept : String)
    (isCorrect : Bool) (attempts : Nat) (timeSpent : Int) (reasoningScore : Frac)
    (context : String) (s : MasteryTracker) :
    ((recordAttempt now concept isCorrect attempts timeSpent reasoningScore context s).2).attemptHistory
      = s.attemptHistory
        ++ [(recordAttempt now concept isCorrect attempts timeSpent reasoningScore context s).1]
    ∧ ((alookup concept
        ((recordAttempt now concept isCorrect attempts timeSpent reasoningScore context s).2).conceptProgress).map
          (fun p => p.totalAttempts))
      = some (((alookup concept s.conceptProgress).map (fun p => p.totalAttempts)).getD 0 + 1) := by
  refine ⟨?_, ?_⟩
  · exact recordAttempt_history_aux now concept isCorrect
      { timestamp := now, concept := concept, isCorrect := isCorrect, attempts := attempts
        timeSpent := timeSpent, reasoningScore := reasoningScore, context := context
        confidence := calculateConfidenceScore isCorrect attempts reasoningScore }
      { s with attemptHistory := s.attemptHistory ++
          [{ timestamp := now, concept := concept, isCorrect := isCorrect, attempts := attempts
             timeSpent := timeSpent, reasoningScore := reasoningScore, context := context
             confidence := calculateConfidenceScore isCorrect attempts reasoningScore }] }
  · exact recordAttempt_totalAttempts_aux now concept isCorrect
      { timestamp := now, concept := concept, isCorrect := isCorrect, attempts := attempts
        timeSpent := timeSpent, reasoningScore := reasoningScore, context := context
        confidence := calculateConfidenceScore isCorrect attempts reasoningScore }
      { s with attemptHistory := s.attemptHistory ++
          [{ timestamp := now, concept := concept, isCorrect := isCorrect, attempts := attempts
             timeSpent := timeSpent, reasoningScore := reasoningScore, context := context
             confidence := calculateConfidenceScore isCorrect attempts reasoningScore }] }

/-- C6 counterexample: `validate` returns `isValid = true` on an analysis
whose consistency score is 0.3 < 0.6 — the claimed
"consistency below 0.6 forces isValid = false" is false, because
`validationCriteria` holds only five criteria and no consistency entry. -/
theorem claim_isvalid_consistency_counterexample :
    consistencyResult.isValid = true
    ∧ consistencyResult.analysis.map (fun a => a.consistency) = some (0.3 : Frac)
    ∧ ((0.3 : Frac) < 0.6) := by
  refine ⟨by decide, by decide, by decide⟩

/-- C6 amended: for reasoning text that survives the short-text guard,
`isValid` is true exactly when the five criteria of `validationCriteria`
meet their minimums — clarity ≥ 0.7, logic ≥ 0.8, evidence ≥ 0.6,
completeness ≥ 0.7 and relevance ≥ 0.8; the consistency score is computed
and reported but is not part of the validity check. -/
theorem claim_isvalid_five_criteria (r : String) (q : Question) (a : Answer)
    (ic : Bool) (h : ¬((jsTrim r).length < 5)) :
    ((validate (some r) q a ic).isValid = true ↔
      ((0.7 : Frac) ≤ (analyzeReasoning r q a ic).clarity
        ∧ (0.8 : Frac) ≤ (analyzeReasoning r q a ic).logic
        ∧ (0.6 : Frac) ≤ (analyzeReasoning r q a ic).evidence
        ∧ (0.7 : Frac) ≤ (analyzeReasoning r q a ic).completeness
        ∧ (0.8 : Frac) ≤ (analyzeReasoning r q a ic).relevance)) := by
  unfold validate
  simp only [h, if_false]
  unfold meetsValidationThreshold
  simp [Bool.and_eq_true, decide_eq_true_eq, and_assoc]

/-- C6 amended witness: the consistency counterexample text discharges the
length hypothesis; all five checked criteria pass there. -/
theorem claim_isvalid_five_criteria_witness :
    ¬((jsTrim consistencyText).length < 5)
    ∧ ((validate (some consistencyText) consistencyQuestion (Answer.num 2) true).isValid = true ↔
      ((0.7 : Frac) ≤ (analyzeReasoning consistencyText consistencyQuestion (Answer.num 2) true).clarity
        ∧ (0.8 : Frac) ≤ (analyzeReasoning consistencyText consistencyQuestion (Answer.num 2) true).logic
        ∧ (0.6 : Frac) ≤ (analyzeReasoning consistencyText consistencyQuestion (Answer.num 2) true).evidence
        ∧ (0.7 : Frac) ≤ (analyzeReasoning consistencyText consistencyQuestion (Answer.num 2) true).completeness
        ∧ (0.8 : Frac) ≤ (analyzeReasoning consistencyText consistencyQuestion (Answer.num 2) true).relevance)) :=
  ⟨by decide,
    claim_isvalid_five_criteria consistencyText consistencyQuestion (Answer.num 2) true (by decide)⟩

/-- C7: reasoning text that is missing or trims below 5 characters makes
`validate` return invalid with score 0 and the needs-more-detail message,
whatever the question, the answer or its correctness. -/
theorem claim_short_reasoning_invalid (r : Option String) (q : Question)
    (a : Answer) (ic : Bool) (h : (jsTrim (r.getD "")).length < 5) :
    (validate r q a ic).isValid = false
    ∧ (validate r q a ic).score = 0
    ∧ (validate r q a ic).feedback
        = "Please provide a more detailed explanation of your reasoning." := by
  have hres : validate r q a ic = shortReasoningResult := by
    cases r with
    | none => rfl
    | some s =>
      simp only [Option.getD] at h
      unfold validate
      simp [h]
  rw [hres]
  exact ⟨rfl, rfl, rfl⟩

/-- C7 witness: a three-character reasoning text. -/
theorem claim_short_reasoning_invalid_witness :
    (jsTrim ((some "hi  ").getD "")).length < 5
    ∧ (validate (some "hi  ") consistencyQuestion (Answer.num 2) true).isValid = false :=
  ⟨by decide,
    (claim_short_reasoning_invalid (some "hi  ") consistencyQuestion (Answer.num 2) true
      (by decide)).1⟩

theorem recordMasteryAchievement_spaced {s1 : MasteryTracker} {c : String}
    {p1 : ConceptProgress} (now : Nat) (scores : MasteryScores) (o : Frac)
    (hp : alookup c s1.conceptProgress = some p1) :
    alookup c (recordMasteryAchievement now c scores o s1).spacedRepetition
        = some (now + 2592000000)
    ∧ (alookup c (recordMasteryAchievement now c scores o s1).conceptProgress).map
        (fun q => q.nextReviewDue) = some (some (now + 2592000000))
    ∧ (alookup c (recordMasteryAchievement now c scores o s1).conceptProgress).map
        (fun q => (q.totalAttempts, q.correctAttempts, q.averageAttempts, q.averageTime))
        = some (p1.totalAttempts, p1.correctAttempts, p1.averageAttempts, p1.averageTime) := by
  unfold recordMasteryAchievement scheduleSpacedRepetition
  simp only [hp]
  simp [alookup_aset_self, retentionIntervals]

/-- C10: `evaluateMastery` is not a read-only query.  On any state whose
(well-formed) progress table holds a record for the concept and whose
current statistics satisfy the mastery criteria, a call (i) returns true,
(ii) appends exactly one fresh achievement record to the concept's mastery
timeline, (iii) overwrites both the spaced-repetition entry and the progress
record's next-review-due time to now + 30 days (2 592 000 000 ms),
(iv) leaves `totalAttempts`, `correctAttempts` and the rolling averages
unchanged, (v) is exactly the state transition that the read-style query
`canProgress` performs for its required concept, and (vi) every
`getPerformanceAnalytics` call, at any stack budget, also grows the
concept's mastery timeline before its stack-overflow error propagates. -/
theorem claim_evaluate_mastery_side_effects (now : Nat) (c : String)
    (s : MasteryTracker) (p : ConceptProgress)
    (hwf : s.conceptProgress.all (fun kv => kv.2.concept == kv.1) = true)
    (h1 : alookup c s.conceptProgress = some p)
    (h2 : masteryDecision s c = true) :
    (evaluateMastery now c s).1 = true
    ∧ alookup c ((evaluateMastery now c s).2).masteryHistory
        = some ((alookup c s.masteryHistory).getD [] ++ [theAchievement now c s p])
    ∧ alookup c ((evaluateMastery now c s).2).spacedRepetition = some (now + 2592000000)
    ∧ (alookup c ((evaluateMastery now c s).2).conceptProgress).map
        (fun q => q.nextReviewDue) = some (some (now + 2592000000))
    ∧ (alookup c ((evaluateMastery now c s).2).conceptProgress).map
        (fun q => (q.totalAttempts, q.correctAttempts, q.averageAttempts, q.averageTime))
        = some (p.totalAttempts, p.correctAttempts, p.averageAttempts, p.averageTime)
    ∧ (canProgress now [c] 1 s).2 = (evaluateMastery now c s).2
    ∧ (∀ fuel, ∃ s', getPerformanceAnalytics (fuel + 1) now s = Except.error s'
        ∧ mhLen s c + 1 ≤ mhLen s' c) := by
  have heval := evaluateMastery_success now h1 h2
  have hp1 : alookup c (withMasteryLevel s c p
      (calculateOverallMastery (calculateMasteryScores s p))).conceptProgress
      = some { p with masteryLevel := calculateOverallMastery (calculateMasteryScores s p) } := by
    simp [withMasteryLevel, alookup_aset_self]
  have hspaced := recordMasteryAchievement_spaced now (calculateMasteryScores s p)
    (calculateOverallMastery (calculateMasteryScores s p)) hp1
  refine ⟨?_, ?_, ?_, ?_, ?_, ?_, ?_⟩
  · rw [heval]
  · rw [heval]
    rw [recordMasteryAchievement_mh]
    simp [withMasteryLevel, alookup_aset_self, theAchievement]
  · rw [heval]
    exact hspaced.1
  · rw [heval]
    exact hspaced.2.1
  · rw [heval]
    rw [hspaced.2.2]
  · have hfst : (evaluateMastery now c s).1 = true := by rw [heval]
    unfold canProgress
    simp only [masteredEvery, h1, hfst]
    by_cases hperf : getRecentOverallPerformance (evaluateMastery now c s).2 now 7 < (0.85 : Frac) <;>
      simp [hperf]
  · intro fuel
    obtain ⟨s2, hrec⟩ := getPerformanceAnalytics_error fuel now
      ((countMastered now (s.conceptProgress.map Prod.snd) s).2)
    refine ⟨s2, by simp [getPerformanceAnalytics, hrec], ?_⟩
    have hmemkv := alookup_mem h1
    have hc : p.concept = c := by
      rw [List.all_eq_true] at hwf
      have := hwf _ hmemkv
      simpa using this
    have hmem : c ∈ (s.conceptProgress.map Prod.snd).map (fun q => q.concept) :=
      List.mem_map.mpr ⟨p, List.mem_map.mpr ⟨(c, p), hmemkv, rfl⟩, hc⟩
    have hfold := countMastered_hit now (s.conceptProgress.map Prod.snd) s c hmem h2
    have hmono := getPerformanceAnalytics_mhLen_le c hrec
    omega

/-- C10 witness: the mastery scenario after three qualifying attempts. -/
theorem claim_evaluate_mastery_side_effects_witness :
    masteryState3.conceptProgress.all (fun kv => kv.2.concept == kv.1) = true
    ∧ alookup "c" masteryState3.conceptProgress = some masteryProgress3
    ∧ masteryDecision masteryState3 "c" = true
    ∧ (evaluateMastery 518400000 "c" masteryState3).1 = true :=
  ⟨by decide, by decide, by decide,
    (claim_evaluate_mastery_side_effects 518400000 "c" masteryState3 masteryProgress3
      (by decide) (by decide) (by decide)).1⟩
